import Mathlib

/-!
# Verification of the KN5 binary scene exporter

Shallow embedding of the exporter core of this repository:

* `lib/kn5/node_writer.py`   — mesh splitting, vertex deduplication,
  instance-group (KSTREE) merging, node-tree writing;
* `lib/kn5/exporter.py`      — the temp-file/replace export driver;
* `lib/kn5/texture_writer.py`— texture classification and PNG → DDS fallback;
* `utils/coordinates.py` and `lib/kn5/utils.py` — coordinate conversion.

Python floats are modelled as exact rationals (`ℚ`); machine-level float
rounding is not modelled.  Host-application (Blender) geometry operations
(`to_mesh`, `remove_doubles`, `triangulate`, `calc_tangents`) are external
collaborators: objects carry the resulting triangulated snapshot as data.
-/

namespace Kn5

/-- 2-component vector (Python tuples / mathutils Vectors of floats). -/
abbrev Vec2 := ℚ × ℚ

/-- 3-component vector. -/
abbrev Vec3 := ℚ × ℚ × ℚ

/-! ## Coordinate conversion (`utils/coordinates.py`, `lib/kn5/utils.py`) -/

/-- `utils/coordinates.py` — `ac_to_blender(x, y, z) = (x, -z, y)`. -/
def ac_to_blender (x y z : ℚ) : Vec3 := (x, -z, y)

/-- `utils/coordinates.py` — `blender_to_ac(x, y, z) = (x, z, -y)`. -/
def blender_to_ac (x y z : ℚ) : Vec3 := (x, z, -y)

/-- `lib/kn5/utils.py` — `convert_vector3(v) = Vector((v[0], v[2], -v[1]))`,
the serializer's Blender → AC conversion for positions/normals/tangents. -/
def convert_vector3 (v : Vec3) : Vec3 := (v.1, v.2.2, -v.2.1)

/-! ## Vertex model and deduplication rule (`node_writer.py`, class `UvVertex`) -/

/-- `UvVertex.EPSILON = 1e-5`. -/
def EPSILON : ℚ := 1 / 100000

/-- `UvVertex.QUANT = 1e5`. -/
def QUANT : ℚ := 100000

/-- Python's builtin `abs` on a float. -/
def pyAbs (q : ℚ) : ℚ := if q < 0 then -q else q

/-- Python's builtin `round`: round-half-to-even (banker's rounding). -/
def pyRound (q : ℚ) : ℤ :=
  let f : ℤ := ⌊q⌋
  let r : ℚ := q - f
  if r < 1 / 2 then f
  else if 1 / 2 < r then f + 1
  else if f % 2 = 0 then f else f + 1

/-- One exporter vertex: position, normal, UV, tangent
(`UvVertex.__init__`). -/
structure UvVertex where
  co : Vec3
  normal : Vec3
  uv : Vec2
  tangent : Vec3
deriving DecidableEq, Inhabited

/-- `UvVertex._quantize` — `round(value * QUANT)`. -/
def quantize (value : ℚ) : ℤ := pyRound (value * QUANT)

/-- The integer tuple hashed by `UvVertex.__hash__` (position, normal and UV
quantized; tangent excluded).  Python then hashes this tuple; equality of the
tuples is what dict-bucket agreement requires. -/
def vertexHashKey (v : UvVertex) : List ℤ :=
  [quantize v.co.1, quantize v.co.2.1, quantize v.co.2.2,
   quantize v.normal.1, quantize v.normal.2.1, quantize v.normal.2.2,
   quantize v.uv.1, quantize v.uv.2]

/-- `UvVertex._approx_equal` — `abs(a - b) < EPSILON`. -/
def approxEqual (a b : ℚ) : Bool := pyAbs (a - b) < EPSILON

/-- `UvVertex.__eq__` — position, normal and UV componentwise within
`EPSILON`; tangent not compared. -/
def vertexEq (u v : UvVertex) : Bool :=
  (approxEqual u.co.1 v.co.1 && approxEqual u.co.2.1 v.co.2.1 &&
     approxEqual u.co.2.2 v.co.2.2) &&
  (approxEqual u.normal.1 v.normal.1 && approxEqual u.normal.2.1 v.normal.2.1 &&
     approxEqual u.normal.2.2 v.normal.2.2) &&
  (approxEqual u.uv.1 v.uv.1 && approxEqual u.uv.2 v.uv.2)

/-! ## Mesh records and the vertex-limit splitter (`node_writer.py`) -/

/-- `utils/constants.py` — `MAX_VERTICES_PER_MESH = 65536`. -/
def MAX_VERTICES_PER_MESH : Nat := 65536

/-- `node_writer.py`, class `Mesh`: one `(material_id, vertices, indices)`
record.  `material_id` is `Option` because `_write_mesh` has a `None`
branch. -/
structure Mesh where
  materialId : Option Nat
  vertices : List UvVertex
  indices : List Nat
deriving DecidableEq, Inhabited

/-- One iteration of the inner loop of `_split_meshes_for_vertex_limit` over a
single `face_index`: the dict `vertex_index_mapping` is modelled as the list of
its keys in insertion order (its dense values are the positions), `new_indices`
as the second component. -/
def chunkStep (st : List Nat × List Nat) (faceIndex : Nat) : List Nat × List Nat :=
  match st.1.findIdx? (· == faceIndex) with
  | some j => (st.1, st.2 ++ [j])
  | none => (st.1 ++ [faceIndex], st.2 ++ [st.1.length])

/-- `for face_index in face: ...` — fold `chunkStep` over one face's indices. -/
def addFaceToChunk (st : List Nat × List Nat) (face : List Nat) : List Nat × List Nat :=
  face.foldl chunkStep st

/-- The `while start_index < len(mesh.indices)` / `for i in range(..., 3)`
loops of `_split_meshes_for_vertex_limit`, recursing over the flat index list
three entries at a time (`face = mesh.indices[i:i+3]`; the one- and
two-element cases are Python's short final slice).  A chunk is closed after a
face once `len(vertex_index_mapping) >= limit - 3`; at the end the current
chunk is emitted unless no face was processed.  Each chunk's vertex list is
`sorted(vertex_index_mapping.items(), key=value)` = insertion order. -/
def splitFaces (limit : Nat) (vertices : List UvVertex) (materialId : Option Nat) :
    List Nat → List Nat → List Nat → List Mesh
  | [], mapping, newIndices =>
    if newIndices.isEmpty then []
    else [⟨materialId, mapping.map (fun v => vertices.getD v default), newIndices⟩]
  | [a], mapping, newIndices =>
    if limit - 3 ≤ (addFaceToChunk (mapping, newIndices) [a]).1.length then
      ⟨materialId,
        (addFaceToChunk (mapping, newIndices) [a]).1.map (fun v => vertices.getD v default),
        (addFaceToChunk (mapping, newIndices) [a]).2⟩ ::
        splitFaces limit vertices materialId [] [] []
    else
      splitFaces limit vertices materialId []
        (addFaceToChunk (mapping, newIndices) [a]).1
        (addFaceToChunk (mapping, newIndices) [a]).2
  | [a, b], mapping, newIndices =>
    if limit - 3 ≤ (addFaceToChunk (mapping, newIndices) [a, b]).1.length then
      ⟨materialId,
        (addFaceToChunk (mapping, newIndices) [a, b]).1.map (fun v => vertices.getD v default),
        (addFaceToChunk (mapping, newIndices) [a, b]).2⟩ ::
        splitFaces limit vertices materialId [] [] []
    else
      splitFaces limit vertices materialId []
        (addFaceToChunk (mapping, newIndices) [a, b]).1
        (addFaceToChunk (mapping, newIndices) [a, b]).2
  | a :: b :: c :: rest, mapping, newIndices =>
    if limit - 3 ≤ (addFaceToChunk (mapping, newIndices) [a, b, c]).1.length then
      ⟨materialId,
        (addFaceToChunk (mapping, newIndices) [a, b, c]).1.map (fun v => vertices.getD v default),
        (addFaceToChunk (mapping, newIndices) [a, b, c]).2⟩ ::
        splitFaces limit vertices materialId rest [] []
    else
      splitFaces limit vertices materialId rest
        (addFaceToChunk (mapping, newIndices) [a, b, c]).1
        (addFaceToChunk (mapping, newIndices) [a, b, c]).2

/-- `NodeWriter._split_meshes_for_vertex_limit`: meshes at or below the limit
pass through; larger ones are re-chunked along faces. -/
def splitMeshesForVertexLimit (dividedMeshes : List Mesh) : List Mesh :=
  dividedMeshes.flatMap (fun mesh =>
    if MAX_VERTICES_PER_MESH < mesh.vertices.length then
      splitFaces MAX_VERTICES_PER_MESH mesh.vertices mesh.materialId mesh.indices [] []
    else [mesh])

/-! ## Errors, warnings and the abstract node output -/

/-- The fatal exceptions the node writer can raise (modelled as data rather
than formatted strings; each constructor carries exactly the names the
message interpolates). -/
inductive ExportError where
  | noMaterials (objName : String)
  | emptySlot (objName : String) (slot : Nat)
  | hiddenMaterial (materialName : String) (objName : String)
  | keyError (materialName : String)
  | meshHasChildren (objName : String)
  | tooManyVertices (objName : String)
deriving DecidableEq, Inhabited

/-- The non-fatal warning strings, as data. -/
inductive Warning where
  | groupVertexLimit (groupName : String) (count : Nat)
  | noMaterialForGroup (groupName : String)
  | noMaterialAssigned (objName : String)
  | unknownLogicalObject (objName : String)
  | texconvNotFound
  | texconvNoOutput (imageName : String)
  | texconvFailed (imageName : String)
  | convertedToDds (imageName : String)
  | usingOriginalPng (imageName : String)
  | exportFailed (e : ExportError)
deriving DecidableEq, Inhabited

/-- `constants.py` — `DEFAULT_MATERIAL_ID = 0`. -/
def DEFAULT_MATERIAL_ID : Nat := 0

/-- One node record of the output stream.  Only the fields some claim
mentions are retained (class id/name/child count for plain nodes; name,
vertex count, index buffer and material id for mesh nodes); the flag, LOD,
matrix and bounding-sphere payloads of the byte stream carry no claim and
are left to the dedicated bounding-sphere functions below. -/
inductive OutNode where
  | plain (name : String) (childCount : Nat) (active : Bool)
  | mesh (name : String) (vertexCount : Nat) (indices : List Nat) (materialId : Nat)
deriving DecidableEq, Inhabited

/-- `NodeWriter._write_mesh`: raises once the vertex count exceeds
`MAX_VERTICES_PER_MESH`; a `None` material id falls back to
`DEFAULT_MATERIAL_ID` with a warning.  (In the source the size check sits
after the header bytes; the partial bytes of a failed write are discarded
with the temporary file, so the node-level model raises before emitting.) -/
def writeMesh (objName : String) (mesh : Mesh) : Except ExportError (OutNode × List Warning) :=
  if MAX_VERTICES_PER_MESH < mesh.vertices.length then
    .error (.tooManyVertices objName)
  else
    match mesh.materialId with
    | none =>
      .ok (.mesh objName mesh.vertices.length mesh.indices DEFAULT_MATERIAL_ID,
        [.noMaterialAssigned objName])
    | some mid => .ok (.mesh objName mesh.vertices.length mesh.indices mid, [])

/-! ## The export driver (`exporter.py`, `export_kn5`) -/

/-- The `status` field of the dictionary `export_kn5` returns. -/
inductive ExportStatus where
  | success
  | error
deriving DecidableEq, Inhabited

/-- Point update of an abstract file system (path → content). -/
def updateFile {β : Type} (fs : String → Option β) (path : String)
    (content : Option β) : String → Option β :=
  fun p => if p = path then content else fs p

/-- `exporter.py`, `export_kn5`: all bytes go to `filepath + ".tmp"` first;
on success the temporary is moved onto `filepath` (`os.replace` when the
destination exists, `os.rename` otherwise — same file-system effect); on any
exception the temporary is unlinked and status `"error"` returned.  The
serializer run inside the `try` is abstracted as its outcome `writeResult`
over an opaque payload type `β` (`.ok` carries the fully written payload and
the accumulated warnings, `.error` the fatal exception; the partial bytes a
failed run left in the temporary are deleted with it, and the warnings
accumulated before the failure are not modelled).
`copy_textures_to_working_directory` only touches the texture folder of the
working directory, never `filepath` or the temporary, and is omitted. -/
def export_kn5 {β : Type} (filepath : String)
    (writeResult : Except ExportError (β × List Warning))
    (fs : String → Option β) :
    ExportStatus × List Warning × (String → Option β) :=
  let tempFilepath := filepath ++ ".tmp"
  match writeResult with
  | .ok (content, warnings) =>
    let fs1 := updateFile fs tempFilepath (some content)
    if (fs1 filepath).isSome then
      -- os.replace(temp_filepath, filepath)
      (.success, warnings,
        updateFile (updateFile fs1 filepath (some content)) tempFilepath none)
    else
      -- os.rename(temp_filepath, filepath)
      (.success, warnings,
        updateFile (updateFile fs1 filepath (some content)) tempFilepath none)
  | .error e =>
    -- Path(temp_filepath).unlink(missing_ok=True)
    (.error, [.exportFailed e], updateFile fs tempFilepath none)

/-! ## Scene snapshot model -/

/-- `utils/helpers.py` — `is_hidden_name(name) = name.startswith("__")`
(spelled on the character list so concrete names evaluate). -/
def is_hidden_name (name : String) : Bool := name.toList.take 2 == ['_', '_']

/-- Python string `<=` (code-point lexicographic; the sort key comparisons
below, spelled on character lists so concrete names evaluate). -/
def charListLe : List Char → List Char → Bool
  | [], _ => true
  | _ :: _, [] => false
  | a :: as, b :: bs => if a < b then true else if b < a then false else charListLe as bs

def pyStringLe (a b : String) : Bool := charListLe a.toList b.toList

/-- Python `str.lower()` (ASCII; group keys are matched by an ASCII
pattern). -/
def pyToLower (s : String) : String := String.mk (s.toList.map Char.toLower)

/-- The Blender object types the writer distinguishes (`obj.type`):
`"MESH"`, `"CURVE"` (only checked by `_any_child_is_mesh`), anything else. -/
inductive ObjType where
  | mesh
  | curve
  | other
deriving DecidableEq, Inhabited

/-- A 4×4 transform (`obj.matrix_world`), rows of four entries. -/
structure Mat4 where
  r0 : ℚ × ℚ × ℚ × ℚ
  r1 : ℚ × ℚ × ℚ × ℚ
  r2 : ℚ × ℚ × ℚ × ℚ
  r3 : ℚ × ℚ × ℚ × ℚ
deriving DecidableEq, Inhabited

/-- `matrix @ vector3` in Blender: the affine action on a 3-vector. -/
def Mat4.applyToPoint (m : Mat4) (v : Vec3) : Vec3 :=
  (m.r0.1 * v.1 + m.r0.2.1 * v.2.1 + m.r0.2.2.1 * v.2.2 + m.r0.2.2.2,
   m.r1.1 * v.1 + m.r1.2.1 * v.2.1 + m.r1.2.2.1 * v.2.2 + m.r1.2.2.2,
   m.r2.1 * v.1 + m.r2.2.1 * v.2.1 + m.r2.2.2.1 * v.2.2 + m.r2.2.2.2)

/-- The identity `Matrix()`. -/
def Mat4.identity : Mat4 :=
  ⟨(1, 0, 0, 0), (0, 1, 0, 0), (0, 0, 1, 0), (0, 0, 0, 1)⟩

/-- A material as the writer reads it: its name and the active texture
node's `texture_mapping` scale/translation
(`get_active_material_texture_slot`; `none` = no visible texture node). -/
structure Material where
  name : String
  textureMapping : Option (Vec2 × Vec2)
deriving DecidableEq, Inhabited

/-- One loop of the triangulated snapshot together with the data the writer
reads from it: `loop.vertex_index`, split `loop.normal`, the active UV layer
coordinate at this loop, `loop.tangent`. -/
structure MeshLoop where
  vertexIndex : Nat
  normal : Vec3
  uv : Vec2
  tangent : Vec3
deriving DecidableEq, Inhabited

/-- One `loop_triangle`: material slot index plus its three loop indices
(loop triangles always carry exactly three loops, so the
`len(face_indices) == 4` quad branch in `_split_object_by_materials` is
dead code and has no counterpart here). -/
structure Triangle where
  materialIndex : Nat
  loops : Nat × Nat × Nat
deriving DecidableEq, Inhabited

/-- The triangulated mesh snapshot the writer reads after `to_mesh`,
`remove_doubles(dist=VERTEX_WELD_TOLERANCE)`, `triangulate` and
`calc_loop_triangles` — host-application geometry operations external to
this repository, so the post-processing result is the model's input.
`hasUvs` is the `has_uvs` flag after the `calc_tangents` try/except (also
`false` when tangent computation failed). -/
structure MeshData where
  positions : List Vec3
  loops : List MeshLoop
  triangles : List Triangle
  materials : List (Option Material)
  hasUvs : Bool
deriving DecidableEq, Inhabited

/-- The per-object export flags `NodeProperties.__init__` reads from
`node.AC_KN5` (`layer` is hard-coded 0 there; with the exporter's empty
settings dict `NodeSettings` never fires, so these values are final). -/
structure NodeProps where
  lodIn : ℚ
  lodOut : ℚ
  castShadows : Bool
  visible : Bool
  transparent : Bool
  renderable : Bool
deriving DecidableEq, Inhabited

/-- One scene object of the snapshot: identity, type, the
`is_object_excluded_by_collection` verdict (host view-layer state,
snapshotted as a flag), world matrix, triangulated mesh data,
`obj.dimensions` (for `_calculate_uvs`), export flags and children. -/
inductive Obj where
  | node (name : String) (otype : ObjType) (excluded : Bool) (matrixWorld : Mat4)
      (mesh : MeshData) (dimensions : Vec3) (props : NodeProps)
      (children : List Obj)

def Obj.name : Obj → String
  | .node n _ _ _ _ _ _ _ => n

def Obj.otype : Obj → ObjType
  | .node _ t _ _ _ _ _ _ => t

def Obj.excluded : Obj → Bool
  | .node _ _ e _ _ _ _ _ => e

def Obj.matrixWorld : Obj → Mat4
  | .node _ _ _ m _ _ _ _ => m

def Obj.mesh : Obj → MeshData
  | .node _ _ _ _ md _ _ _ => md

def Obj.dimensions : Obj → Vec3
  | .node _ _ _ _ _ d _ _ => d

def Obj.props : Obj → NodeProps
  | .node _ _ _ _ _ _ p _ => p

def Obj.children : Obj → List Obj
  | .node _ _ _ _ _ _ _ c => c

instance : Inhabited Obj :=
  ⟨.node "" .other false default default default default []⟩

/-! ## Material-grouped record building (`_split_object_by_materials`,
`_extract_tree_mesh_data`) -/

/-- Lookup in `MaterialWriter.material_positions` (material name → id). -/
def materialPositionsGet (positions : List (String × Nat)) (name : String) :
    Option Nat :=
  (positions.find? (fun p => p.1 == name)).map (fun p => p.2)

/-- `NodeWriter._calculate_uvs`: synthesised planar UVs used by the split
path when the mesh has no UV layer; scaled/translated by the active texture
node's mapping when present.  (A zero dimension raises ZeroDivisionError in
Python; `ℚ` division by zero yields 0 — no claim touches that case.) -/
def calculateUvs (dimensions : Vec3) (textureMapping : Option (Vec2 × Vec2))
    (co : Vec3) : Vec2 :=
  let x := co.1 / dimensions.1
  let y := co.2.1 / dimensions.2.1
  match textureMapping with
  | some (scale, translation) =>
    (x * scale.1 + translation.1, y * scale.2 + translation.2)
  | none => (x, y)

/-- The per-loop vertex both record builders construct: world-space
position, split normal and tangent run through `convert_vector3`; the
active UV is V-flipped (`(uv[0], -uv[1])`); without a UV layer the UV comes
from `uvFallback` (synthesised planar UVs in the split path, `(0, 0)` in
the tree path) and the tangent falls back to `(1.0, 0.0, 0.0)`. -/
def loopVertex (md : MeshData) (matrix : Mat4) (uvFallback : Vec3 → Vec2)
    (loopIndex : Nat) : UvVertex :=
  let loop := md.loops.getD loopIndex default
  let localPosition := matrix.applyToPoint (md.positions.getD loop.vertexIndex default)
  let uv := if md.hasUvs then (loop.uv.1, -loop.uv.2) else uvFallback localPosition
  let tangent := if md.hasUvs then convert_vector3 loop.tangent else (1, 0, 0)
  ⟨convert_vector3 localPosition, convert_vector3 loop.normal, uv, tangent⟩

/-- Lookup in the `vertices` dict keyed by `UvVertex`: Python finds an
existing key iff some stored key has an equal hash and compares `==`
(`__hash__` selects the bucket, then `__eq__` runs); insertion order is the
dense index order. -/
def findVertexIdx (entries : List UvVertex) (v : UvVertex) : Option Nat :=
  entries.findIdx?
    (fun k => decide (vertexHashKey k = vertexHashKey v) && vertexEq k v)

/-- `if vertex not in vertices: vertices[vertex] = len(vertices)` followed by
`vertices[vertex]`. -/
def insertVertex (entries : List UvVertex) (v : UvVertex) : List UvVertex × Nat :=
  match findVertexIdx entries v with
  | some i => (entries, i)
  | none => (entries ++ [v], entries.length)

/-- One matching triangle: its three loop vertices are looked up/inserted in
sequence and the face's dedup indices appended rotated one position —
`indices.extend((face_indices[1], face_indices[2], face_indices[0]))`. -/
def addTriangle (mkVertex : Nat → UvVertex) (st : List UvVertex × List Nat)
    (t : Triangle) : List UvVertex × List Nat :=
  let r0 := insertVertex st.1 (mkVertex t.loops.1)
  let r1 := insertVertex r0.1 (mkVertex t.loops.2.1)
  let r2 := insertVertex r1.1 (mkVertex t.loops.2.2)
  (r2.1, st.2 ++ [r1.2, r2.2, r0.2])

/-- Distinct elements in first-occurrence order. -/
def distinctInOrder (l : List Nat) : List Nat :=
  l.foldl (fun acc x => if x ∈ acc then acc else acc ++ [x]) []

/-- `set([triangle.material_index for triangle in mesh_triangles])`,
modelled as the distinct indices in first-occurrence order (the host's set
iteration order over small ints is implementation-defined; only the record
order depends on it, and no claim does). -/
def usedMaterials (md : MeshData) : List Nat :=
  distinctInOrder (md.triangles.map (fun t => t.materialIndex))

/-- The triangle loop for one material slot: all triangles of that slot, in
order, deduplicated into a vertex list and rotated index triples. -/
def buildMaterialRecord (md : MeshData) (matrix : Mat4)
    (uvFallback : Vec3 → Vec2) (materialIndex : Nat) :
    List UvVertex × List Nat :=
  (md.triangles.filter (fun t => t.materialIndex == materialIndex)).foldl
    (addTriangle (loopVertex md matrix uvFallback)) ([], [])

/-- `NodeWriter._split_object_by_materials`: no materials at all is fatal; a
used slot with no material is fatal (names the object and the slot); a used
hidden (`__`) material is fatal; a material name missing from
`material_positions` raises `KeyError` (`[...]` lookup).  One `Mesh` record
per used material otherwise.  (An out-of-range slot index cannot occur in
host data; `getD` folds it into the empty-slot error, where Python would
raise IndexError — both abort the export.) -/
def splitObjectByMaterials (materialPositions : List (String × Nat))
    (objName : String) (dimensions : Vec3) (matrix : Mat4) (md : MeshData) :
    Except ExportError (List Mesh) :=
  if md.materials.isEmpty then .error (.noMaterials objName)
  else
    (usedMaterials md).foldlM
      (fun meshes materialIndex =>
        match md.materials.getD materialIndex none with
        | none => .error (.emptySlot objName materialIndex)
        | some material =>
          if is_hidden_name material.name then
            .error (.hiddenMaterial material.name objName)
          else
            match materialPositionsGet materialPositions material.name with
            | none => .error (.keyError material.name)
            | some materialId =>
              let record := buildMaterialRecord md matrix
                (calculateUvs dimensions material.textureMapping) materialIndex
              .ok (meshes ++ [⟨some materialId, record.1, record.2⟩]))
      []

/-- One used slot of `NodeWriter._extract_tree_mesh_data`'s material loop:
an empty or hidden slot is skipped with `continue`, the material id is
looked up with `.get` and a missing id also just skips; without a UV layer
the UV falls back to `(0, 0)`. -/
def extractSlotStep (materialPositions : List (String × Nat)) (matrix : Mat4)
    (md : MeshData) (result : List (List UvVertex × List Nat × Nat))
    (materialIndex : Nat) : List (List UvVertex × List Nat × Nat) :=
  match md.materials.getD materialIndex none with
  | none => result
  | some material =>
    if is_hidden_name material.name then result
    else
      match materialPositionsGet materialPositions material.name with
      | none => result
      | some materialId =>
        let record := buildMaterialRecord md matrix (fun _ => (0, 0))
          materialIndex
        result ++ [(record.1, record.2, materialId)]

/-- `NodeWriter._extract_tree_mesh_data`: the KSTREE-merge variant of the
split — an object without materials yields no records (`return result`),
and each used slot contributes through `extractSlotStep`.  Returns
`(vertices, indices, material_id)` records; never raises and never
warns. -/
def extractTreeMeshData (materialPositions : List (String × Nat))
    (matrix : Mat4) (md : MeshData) : List (List UvVertex × List Nat × Nat) :=
  if md.materials.isEmpty then []
  else
    (usedMaterials md).foldl (extractSlotStep materialPositions matrix md) []

/-! ## Instance-group (KSTREE) merging -/

open Classical in
/-- `NodeWriter._calculate_tree_normal`: the exact real-number semantics of
the float computation (square roots land in `ℝ`); the two `> 0.001` guards
on computed lengths are taken on the squares, which is equivalent for
nonnegative values. -/
noncomputable def calculateTreeNormal (vertexPos vertexNormal : Vec3)
    (meshCenterY : ℚ) : ℝ × ℝ × ℝ :=
  let heightAboveCenter : ℚ := vertexPos.2.1 - meshCenterY
  let heightFactor : ℚ := min 1 (max (1 / 2) (7 / 10 + heightAboveCenter * (1 / 10)))
  let horizSq : ℚ := vertexNormal.1 ^ 2 + vertexNormal.2.2 ^ 2
  if (1 / 1000 : ℚ) ^ 2 < horizSq then
    let horizLen : ℝ := Real.sqrt (horizSq : ℝ)
    let horizWeight : ℚ := (1 - heightFactor) * (1 / 2)
    let nx : ℝ := ((vertexNormal.1 : ℝ) / horizLen) * (horizWeight : ℝ)
    let ny : ℝ := ((heightFactor + (1 - heightFactor) * (1 / 2) : ℚ) : ℝ)
    let nz : ℝ := ((vertexNormal.2.2 : ℝ) / horizLen) * (horizWeight : ℝ)
    let lengthSq : ℝ := nx * nx + ny * ny + nz * nz
    if ((1 / 1000 : ℚ) : ℝ) ^ 2 < lengthSq then
      (nx / Real.sqrt lengthSq, ny / Real.sqrt lengthSq, nz / Real.sqrt lengthSq)
    else (0, 1, 0)
  else (0, 1, 0)

/-- A vertex of the merged KSTREE mesh after the tree-normal override (the
normal becomes real-valued through the normalisation square roots). -/
structure TreeVertex where
  co : Vec3
  normal : ℝ × ℝ × ℝ
  uv : Vec2
  tangent : Vec3

/-- Second pass of `_write_kstree_group`: concatenate every record's
vertices (normals overridden via `_calculate_tree_normal`) and its indices
shifted by `index_offset = len(all_vertices)`. -/
noncomputable def mergeTreeRecords (records : List (List UvVertex × List Nat × Nat))
    (meshCenterY : ℚ) : List TreeVertex × List Nat :=
  records.foldl
    (fun acc r =>
      (acc.1 ++ r.1.map (fun v =>
          ⟨v.co, calculateTreeNormal v.co v.normal meshCenterY, v.uv, v.tangent⟩),
       acc.2 ++ r.2.1.map (fun idx => idx + acc.1.length)))
    ([], [])

/-- `NodeWriter._write_kstree_group`: nothing is written when the group has
no mesh objects or the merged geometry is empty; otherwise one merged mesh
node named after the group, with a non-fatal warning when the merge exceeds
`MAX_VERTICES_PER_MESH`, and the first record's material id
(`DEFAULT_MATERIAL_ID` plus a warning if no record carried one; flag/LOD
payloads come from the first contributing member and are not part of the
node model). -/
noncomputable def writeKstreeGroup (materialPositions : List (String × Nat))
    (groupName : String) (objects : List Obj) : List OutNode × List Warning :=
  let meshObjects := objects.filter (fun o => o.otype == ObjType.mesh)
  if meshObjects.isEmpty then ([], [])
  else
    let records := meshObjects.flatMap
      (fun o => extractTreeMeshData materialPositions o.matrixWorld o.mesh)
    let allPositionsY := records.flatMap (fun r => r.1.map (fun v => v.co.2.1))
    let meshCenterY : ℚ :=
      if allPositionsY.isEmpty then 0
      else allPositionsY.sum / (allPositionsY.length : ℚ)
    let merged := mergeTreeRecords records meshCenterY
    if merged.1.isEmpty then ([], [])
    else
      let limitWarnings :=
        if MAX_VERTICES_PER_MESH < merged.1.length then
          [Warning.groupVertexLimit groupName merged.1.length]
        else []
      let materialWarnings :=
        if records.isEmpty then [Warning.noMaterialForGroup groupName] else []
      let materialId := ((records.head?).map (fun r => r.2.2)).getD DEFAULT_MATERIAL_ID
      ([OutNode.mesh groupName merged.1.length merged.2 materialId],
        limitWarnings ++ materialWarnings)

/-! ## Collecting and grouping top-level objects -/

/-- `[A-Z0-9_]` with `re.IGNORECASE` (ASCII; the pattern itself is ASCII). -/
def isWordChar (c : Char) : Bool :=
  ('A' ≤ c && c ≤ 'Z') || ('a' ≤ c && c ≤ 'z') || ('0' ≤ c && c ≤ '9') || c == '_'

/-- `_get_kstree_group_name` via `KSTREE_GROUP_PATTERN` =
`^KSTREE_GROUP_([A-Z0-9_]+)_(\d+)$`, `re.IGNORECASE`: the name must start
(case-insensitively) with `KSTREE_GROUP_`; the remainder must be word
characters ending in an underscore followed only by digits; the greedy
first group is everything before that last underscore, original case
preserved. -/
def kstreeGroupName (objName : String) : Option String :=
  let cs := objName.toList
  if ((cs.take 13).map Char.toUpper) = "KSTREE_GROUP_".toList then
    let revRest := (cs.drop 13).reverse
    let digitsRev := revRest.takeWhile Char.isDigit
    match revRest.dropWhile Char.isDigit with
    | '_' :: gRev =>
      if digitsRev.isEmpty then none
      else if gRev.isEmpty then none
      else if (gRev.reverse).all isWordChar then some (String.mk gRev.reverse)
      else none
    | _ => none
  else none

/-- One entry of the `kstree_groups` dict: lowercase key ↦ (original-case
display name from the first occurrence, member objects in scan order). -/
structure KstreeGroup where
  key : String
  displayName : String
  objects : List Obj

/-- Appending one object to its (possibly new) group, dict insertion order
preserved. -/
def addToGroups (groups : List KstreeGroup) (groupName : String) (obj : Obj) :
    List KstreeGroup :=
  let key := pyToLower groupName
  if groups.any (fun g => g.key == key) then
    groups.map (fun g =>
      if g.key == key then ⟨g.key, g.displayName, g.objects ++ [obj]⟩ else g)
  else groups ++ [⟨key, groupName, [obj]⟩]

/-- `NodeWriter._collect_and_group_objects`: scan `blend_data.objects`
skipping parented objects (the model's input is the list of parentless
objects in host order), hidden names and collection-excluded objects; the
rest split into KSTREE groups and regular objects; regular objects sorted
(stably) by child count, group members by name. -/
def collectScanStep (acc : List Obj × List KstreeGroup) (obj : Obj) :
    List Obj × List KstreeGroup :=
  if is_hidden_name obj.name then acc
  else if obj.excluded then acc
  else
    match kstreeGroupName obj.name with
    | some g => (acc.1, addToGroups acc.2 g obj)
    | none => (acc.1 ++ [obj], acc.2)

/-- The objects the scan labels "regular": not hidden, not excluded, not
matching the KSTREE pattern. -/
def isRegularRoot (o : Obj) : Bool :=
  !is_hidden_name o.name && !o.excluded && (kstreeGroupName o.name).isNone

def collectAndGroupObjects (roots : List Obj) : List Obj × List KstreeGroup :=
  let scanned := roots.foldl collectScanStep ([], [])
  (scanned.1.mergeSort (fun a b => decide (a.children.length ≤ b.children.length)),
   scanned.2.map (fun g =>
     ⟨g.key, g.displayName, g.objects.mergeSort (fun a b => pyStringLe a.name b.name)⟩))

/-! ## The node tree writer (`NodeWriter.write` and helpers) -/

/-- `ASSETTO_CORSA_OBJECTS` membership: each entry of the tuple in
`utils/constants.py` compiled as `^name$` by
`_init_assetto_corsa_objects`. -/
def allDigits (cs : List Char) : Bool := !cs.isEmpty && cs.all Char.isDigit

def acDigitsTail (name p : String) : Bool :=
  p.toList.isPrefixOf name.toList && allDigits (name.toList.drop p.toList.length)

def acTimeGate (name suf : String) : Bool :=
  let mid := name.toList.drop 8
  "AC_TIME_".toList.isPrefixOf name.toList &&
    name.toList.reverse.take 2 == suf.toList.reverse &&
    allDigits (mid.take (mid.length - 2))

def isAcObject (name : String) : Bool :=
  acDigitsTail name "AC_START_" ||
  acDigitsTail name "AC_PIT_" ||
  acTimeGate name "_L" ||
  acTimeGate name "_R" ||
  acDigitsTail name "AC_HOTLAP_START_" ||
  name == "AC_OPEN_FINISH_R" ||
  name == "AC_OPEN_FINISH_L" ||
  name == "AC_OPEN_START_L" ||
  name == "AC_OPEN_START_R" ||
  ("AC_AUDIO_".toList.isPrefixOf name.toList && 9 < name.toList.length) ||
  acDigitsTail name "AC_CREW_"

/-- `NodeWriter._any_child_is_mesh`: some descendant through children is a
`MESH` or `CURVE`. -/
def anyChildIsMesh (o : Obj) : Bool :=
  o.children.attach.any
    (fun c => c.1.otype == ObjType.mesh || c.1.otype == ObjType.curve ||
      anyChildIsMesh c.1)
termination_by sizeOf o
decreasing_by
  have h := List.sizeOf_lt_of_mem c.2
  cases o with
  | node n t e m md d p ch =>
    simp only [Obj.children] at h
    simp
    omega

/-- `NodeWriter._write_base_node` for an actual object: warn when the name
is neither a recognised AC object nor has a mesh-bearing descendant; the
child count includes only non-hidden, non-excluded children (the converted
local matrix payload carries no claim and is not part of the node model). -/
def writeBaseNode (obj : Obj) : List OutNode × List Warning :=
  let warnings :=
    if !isAcObject obj.name && !anyChildIsMesh obj then
      [Warning.unknownLogicalObject obj.name]
    else []
  let numChildren := (obj.children.filter
      (fun c => !is_hidden_name c.name && !c.excluded)).length
  ([.plain obj.name numChildren true], warnings)

/-- `NodeWriter._write_mesh_node`: split by material, re-split for the
vertex limit, wrap in a plain container node when the object has a parent
or splits into more than one record, then write each record
(`node_settings` is a no-op here: the exporter passes an empty settings
dict). -/
def writeMeshNode (materialPositions : List (String × Nat)) (hasParent : Bool)
    (obj : Obj) : Except ExportError (List OutNode × List Warning) := do
  let splitMeshes ← splitObjectByMaterials materialPositions obj.name
    obj.dimensions obj.matrixWorld obj.mesh
  let dividedMeshes := splitMeshesForVertexLimit splitMeshes
  let container : List OutNode :=
    if hasParent || 1 < dividedMeshes.length then
      [.plain obj.name dividedMeshes.length true]
    else []
  let results ← dividedMeshes.foldlM
    (fun (acc : List OutNode × List Warning) mesh => do
      let r ← writeMesh obj.name mesh
      return (acc.1 ++ [r.1], acc.2 ++ r.2))
    ([], [])
  return (container ++ results.1, results.2)

mutual

/-- `NodeWriter._write_object`: hidden names are skipped entirely (children
included); a mesh with children is fatal; otherwise the node itself is
written, then the non-excluded children recursively (`hasParent` stands for
`obj.parent` being set — the model recurses from the roots). -/
def writeObject (materialPositions : List (String × Nat)) (hasParent : Bool)
    (obj : Obj) : Except ExportError (List OutNode × List Warning) :=
  if is_hidden_name obj.name then .ok ([], [])
  else do
    let head ←
      if obj.otype == ObjType.mesh then
        if !obj.children.isEmpty then .error (.meshHasChildren obj.name)
        else writeMeshNode materialPositions hasParent obj
      else (.ok (writeBaseNode obj) : Except ExportError _)
    let rest ← writeChildObjects materialPositions obj.children
    return (head.1 ++ rest.1, head.2 ++ rest.2)
termination_by sizeOf obj
decreasing_by
  cases obj with
  | node n t e m md d p ch =>
    simp [Obj.children]
    try omega

/-- `for child in obj.children: if not is_object_excluded_by_collection(child): self._write_object(child)`. -/
def writeChildObjects (materialPositions : List (String × Nat)) :
    List Obj → Except ExportError (List OutNode × List Warning)
  | [] => .ok ([], [])
  | child :: rest => do
    let first ←
      if !child.excluded then writeObject materialPositions true child
      else (.ok ([], []) : Except ExportError _)
    let others ← writeChildObjects materialPositions rest
    return (first.1 ++ others.1, first.2 ++ others.2)
termination_by cs => sizeOf cs
decreasing_by
  all_goals simp
  all_goals omega

end

/-- The loop `for obj in regular_objects: self._write_object(obj)` at the
end of `NodeWriter.write` (top-level objects have no parent). -/
def writeTopObjects (materialPositions : List (String × Nat)) :
    List Obj → Except ExportError (List OutNode × List Warning)
  | [] => .ok ([], [])
  | obj :: rest => do
    let first ← writeObject materialPositions false obj
    let others ← writeTopObjects materialPositions rest
    return (first.1 ++ others.1, first.2 ++ others.2)

/-- `NodeWriter.write`: one root `PlainNode` named `BlenderFile` whose child
count is `len(regular_objects) + len(kstree_groups)`, then the KSTREE
groups in sorted key order, then the regular objects. -/
noncomputable def writeNodes (materialPositions : List (String × Nat))
    (roots : List Obj) : Except ExportError (List OutNode × List Warning) := do
  let collected := collectAndGroupObjects roots
  let totalChildren := collected.1.length + collected.2.length
  let sortedGroups := collected.2.mergeSort (fun a b => pyStringLe a.key b.key)
  let groupOut := sortedGroups.foldl
    (fun (acc : List OutNode × List Warning) g =>
      let r := writeKstreeGroup materialPositions g.displayName g.objects
      (acc.1 ++ r.1, acc.2 ++ r.2))
    ([], [])
  let rest ← writeTopObjects materialPositions collected.1
  return (OutNode.plain "BlenderFile" totalChildren true :: (groupOut.1 ++ rest.1),
    groupOut.2 ++ rest.2)

/-! ## Bounding sphere (`NodeWriter._write_bounding_sphere`) -/

/-- The max loop (`if co[i] > max_i`): the source starts at `-inf`, so on a
nonempty list the fold starts from the first coordinate (the writer only
ever receives nonempty vertex lists; `0` stands in for the empty case). -/
def sphereMaxQ (f : Vec3 → ℚ) : List Vec3 → ℚ
  | [] => 0
  | c :: rest => rest.foldl (fun m v => if m < f v then f v else m) (f c)

/-- The min loop (`if co[i] < min_i`), started at `+inf` in the source. -/
def sphereMinQ (f : Vec3 → ℚ) : List Vec3 → ℚ
  | [] => 0
  | c :: rest => rest.foldl (fun m v => if f v < m then f v else m) (f c)

/-- `sphere_center = [min + (max - min) / 2, ...]` per axis. -/
def sphereCenter (cos : List Vec3) : Vec3 :=
  (sphereMinQ (fun v => v.1) cos +
     (sphereMaxQ (fun v => v.1) cos - sphereMinQ (fun v => v.1) cos) / 2,
   sphereMinQ (fun v => v.2.1) cos +
     (sphereMaxQ (fun v => v.2.1) cos - sphereMinQ (fun v => v.2.1) cos) / 2,
   sphereMinQ (fun v => v.2.2) cos +
     (sphereMaxQ (fun v => v.2.2) cos - sphereMinQ (fun v => v.2.2) cos) / 2)

/-- Squared Euclidean distance (`dx*dx + dy*dy + dz*dz`). -/
def sqDist (a b : Vec3) : ℚ :=
  (a.1 - b.1) ^ 2 + (a.2.1 - b.2.1) ^ 2 + (a.2.2 - b.2.2) ^ 2

/-- The radius loop `if dist > sphere_radius` starting from `0.0`.  The
source compares `(d²) ** 0.5`; the fold below compares the squares, which
is equivalent since the square root is strictly monotone on nonnegative
values — the written radius is `√(sphereRadiusSq ...)`. -/
def sphereRadiusSq (cos : List Vec3) (center : Vec3) : ℚ :=
  cos.foldl (fun r v => if r < sqDist v center then sqDist v center else r) 0

/-- `NodeWriter._write_bounding_sphere` over a record's vertex positions:
the payload is `(sphere_center, √(squared radius))`; the model carries the
squared radius. -/
def boundingSphere (cos : List Vec3) : Vec3 × ℚ :=
  (sphereCenter cos, sphereRadiusSq cos (sphereCenter cos))

/-! ## Texture processing (`texture_writer.py`) -/

/-- `is_dds_data`: `image_data[:3] == b"DDS"`. -/
def is_dds_data (imageData : List Nat) : Bool :=
  imageData.take 3 == [0x44, 0x44, 0x53]

/-- `is_png_data`: `image_data[:4] == b"\x89PNG"`. -/
def is_png_data (imageData : List Nat) : Bool :=
  imageData.take 4 == [0x89, 0x50, 0x4E, 0x47]

/-- `os.path.splitext(name)[0]`: strip the last extension; the last dot
separates an extension only when a non-dot character precedes it (CPython
rule for leading dots). -/
def splitextRoot (name : String) : String :=
  match name.toList.reverse.dropWhile (fun c => c != '.') with
  | [] => name
  | _ :: before =>
    if before.any (fun c => c != '.') then String.mk before.reverse
    else name

/-- The three outcomes of the external `texconv` subprocess run (an external
collaborator: a blocking call whose effect is only observed through its
exit status and output file). -/
inductive TexconvOutcome where
  | output (dds : List Nat)
  | noOutput
  | failed
deriving DecidableEq, Inhabited

/-- `convert_png_to_dds`: when `texconv.exe` is absent, a warning and
`(None, None)`; otherwise the run's outcome decides — an output file yields
the DDS bytes under the `.dds`-swapped name, a missing output or a
`CalledProcessError` yields `(None, None)` with a warning.  (`png_data`
itself only feeds the temporary file handed to the tool.) -/
def convert_png_to_dds (texconvExists : Bool) (outcome : TexconvOutcome)
    (pngData : List Nat) (imageName : String) :
    Option (List Nat × String) × List Warning :=
  if !texconvExists then (none, [.texconvNotFound])
  else
    match outcome with
    | .output ddsData => (some (ddsData, splitextRoot imageName ++ ".dds"), [])
    | .noOutput => (none, [.texconvNoOutput imageName])
    | .failed => (none, [.texconvFailed imageName])

/-- `TextureWriter._process_texture`: DDS bytes pass through under the real
name; PNG bytes go through `convert_png_to_dds` and fall back to the
original bytes (with a warning naming the texture) when conversion fails;
every other format passes through unchanged.  `realName` is
`get_real_texture_name(image)` (host file-path state, resolved before this
point). -/
def processTexture (texconvExists : Bool) (outcome : TexconvOutcome)
    (realName : String) (imageData : List Nat) :
    (String × List Nat) × List Warning :=
  if is_dds_data imageData then ((realName, imageData), [])
  else if is_png_data imageData then
    match convert_png_to_dds texconvExists outcome imageData realName with
    | (some (ddsData, newName), ws) =>
      ((newName, ddsData), ws ++ [.convertedToDds realName])
    | (none, ws) => ((realName, imageData), ws ++ [.usingOriginalPng realName])
  else ((realName, imageData), [])

/-- `TextureWriter._process_all_textures` + `write`: every available texture
is processed in first-seen order (the position table is the same order), so
the texture section is the per-texture results in sequence with their
warnings. -/
def processAllTextures (texconvExists : Bool) (tool : String → TexconvOutcome)
    (textures : List (String × List Nat)) :
    List (String × List Nat) × List Warning :=
  textures.foldl
    (fun acc t =>
      let r := processTexture texconvExists (tool t.1) t.1 t.2
      (acc.1 ++ [r.1], acc.2 ++ r.2))
    ([], [])

/-- The abstract serialized file: the texture section and the node section
(the material section lies between them in the byte stream; `MaterialWriter`
is outside every claim and omitted). -/
structure Kn5Payload where
  textures : List (String × List Nat)
  nodes : List OutNode
deriving DecidableEq

/-- `KN5Exporter.write` inside `export_kn5`'s `try`: process textures (pure,
never raises), then write the node tree (which may raise), and drive the
temporary-file protocol with the combined payload and warnings. -/
noncomputable def runExport (texconvExists : Bool) (tool : String → TexconvOutcome)
    (textures : List (String × List Nat)) (materialPositions : List (String × Nat))
    (roots : List Obj) (filepath : String) (fs : String → Option Kn5Payload) :
    ExportStatus × List Warning × (String → Option Kn5Payload) :=
  let tex := processAllTextures texconvExists tool textures
  match writeNodes materialPositions roots with
  | .ok (nodes, nodeWs) =>
    export_kn5 filepath (.ok (⟨tex.1, nodes⟩, tex.2 ++ nodeWs)) fs
  | .error e => export_kn5 filepath (.error e) fs

/-- The spec's statement of the instance-group skip rule, for comparison
with `extractTreeMeshData`: a used slot is kept iff it has a material
assigned, the material name is not hidden, and the name is in
`material_positions`. -/
def treeSlotKept (materialPositions : List (String × Nat)) (md : MeshData)
    (materialIndex : Nat) : Bool :=
  match md.materials.getD materialIndex none with
  | none => false
  | some m =>
    !is_hidden_name m.name && (materialPositionsGet materialPositions m.name).isSome

/-- The record a kept slot contributes (junk `([], [], 0)` on a skipped
slot, which `treeSlotKept` filters out first). -/
def treeSlotRecord (materialPositions : List (String × Nat)) (matrix : Mat4)
    (md : MeshData) (materialIndex : Nat) : List UvVertex × List Nat × Nat :=
  match md.materials.getD materialIndex none with
  | none => ([], [], 0)
  | some m =>
    match materialPositionsGet materialPositions m.name with
    | none => ([], [], 0)
    | some materialId =>
      ((buildMaterialRecord md matrix (fun _ => (0, 0)) materialIndex).1,
       (buildMaterialRecord md matrix (fun _ => (0, 0)) materialIndex).2,
       materialId)

end Kn5

/-! ## Claim theorems (first group) -/

open Kn5

/-- **C8**: the two coordinate conversions are mutually inverse, and the
serializer's `convert_vector3` coincides with the `(x, y, z) → (x, z, -y)`
Blender → AC mapping. -/
theorem C8_coordinate_round_trip (x y z : ℚ) :
    (blender_to_ac (ac_to_blender x y z).1 (ac_to_blender x y z).2.1
        (ac_to_blender x y z).2.2 = (x, y, z)) ∧
    (ac_to_blender (blender_to_ac x y z).1 (blender_to_ac x y z).2.1
        (blender_to_ac x y z).2.2 = (x, y, z)) ∧
    convert_vector3 (x, y, z) = blender_to_ac x y z := by
  refine ⟨?_, ?_, rfl⟩ <;> simp [ac_to_blender, blender_to_ac]

/-- **C2** (code bug witness): two vertices that compare equal under
`UvVertex.__eq__` (componentwise within `1e-5`; here the x-positions are
`4.9e-6` and `5.1e-6`) but whose quantized hash tuples differ
(`round(0.49) = 0` vs `round(0.51) = 1`), contradicting `__hash__`'s own
documented guarantee that equal vertices hash to the same bucket. -/
theorem C2_equal_vertices_hash_differently :
    vertexEq
      ⟨(49 / 10000000, 0, 0), (0, 0, 0), (0, 0), (1, 0, 0)⟩
      ⟨(51 / 10000000, 0, 0), (0, 0, 0), (0, 0), (1, 0, 0)⟩ = true ∧
    vertexHashKey ⟨(49 / 10000000, 0, 0), (0, 0, 0), (0, 0), (1, 0, 0)⟩ ≠
      vertexHashKey ⟨(51 / 10000000, 0, 0), (0, 0, 0), (0, 0), (1, 0, 0)⟩ := by
  constructor
  · norm_num [vertexEq, approxEqual, pyAbs, EPSILON]
  · norm_num [vertexHashKey, quantize, pyRound, QUANT]

/-! ### C1: vertex-ceiling invariant of the limit splitter -/

theorem chunkStep_fst_length (m ni : List Nat) (i : Nat) :
    m.length ≤ (chunkStep (m, ni) i).1.length ∧
      (chunkStep (m, ni) i).1.length ≤ m.length + 1 := by
  cases h : m.findIdx? (· == i) <;> simp [chunkStep, h]

theorem chunkStep_snd_length (m ni : List Nat) (i : Nat) :
    (chunkStep (m, ni) i).2.length = ni.length + 1 := by
  cases h : m.findIdx? (· == i) <;> simp [chunkStep, h]

theorem addFaceToChunk_fst_length (face : List Nat) (m ni : List Nat) :
    m.length ≤ (addFaceToChunk (m, ni) face).1.length ∧
      (addFaceToChunk (m, ni) face).1.length ≤ m.length + face.length := by
  induction face generalizing m ni with
  | nil => simp [addFaceToChunk]
  | cons a l ih =>
    have h1 := chunkStep_fst_length m ni a
    have h2 := ih (chunkStep (m, ni) a).1 (chunkStep (m, ni) a).2
    simp only [addFaceToChunk, List.foldl_cons, List.length_cons, Prod.mk.eta] at *
    constructor <;> omega

theorem addFaceToChunk_snd_length (face : List Nat) (m ni : List Nat) :
    (addFaceToChunk (m, ni) face).2.length = ni.length + face.length := by
  induction face generalizing m ni with
  | nil => simp [addFaceToChunk]
  | cons a l ih =>
    have h1 := chunkStep_snd_length m ni a
    have h2 := ih (chunkStep (m, ni) a).1 (chunkStep (m, ni) a).2
    simp only [addFaceToChunk, List.foldl_cons, List.length_cons, Prod.mk.eta] at *
    omega

theorem splitFaces_nil (limit : Nat) (vertices : List UvVertex) (mid : Option Nat)
    (mapping ni : List Nat) :
    splitFaces limit vertices mid [] mapping ni =
      if ni.isEmpty then []
      else [⟨mid, mapping.map (fun v => vertices.getD v default), ni⟩] := by
  simp [splitFaces]

theorem splitFaces_vertex_bound (limit : Nat) (vertices : List UvVertex)
    (mid : Option Nat) (rest mapping newIndices : List Nat) :
    mapping.length < limit - 3 →
    ∀ m ∈ splitFaces limit vertices mid rest mapping newIndices,
      m.vertices.length ≤ limit := by
  induction rest, mapping, newIndices using splitFaces.induct limit vertices mid with
  | case1 mapping ni hemp =>
    intro hmap m hm
    simp [splitFaces, hemp] at hm
  | case2 mapping ni hemp =>
    intro hmap m hm
    simp [splitFaces, hemp] at hm
    subst hm
    simp only [List.length_map]
    omega
  | case3 a mapping ni h ih =>
    intro hmap m hm
    have hst := addFaceToChunk_fst_length [a] mapping ni
    rw [splitFaces.eq_2, if_pos h, splitFaces_nil] at hm
    simp only [List.isEmpty_nil, if_true, List.mem_singleton] at hm
    subst hm
    simp only [List.length_map, List.length_cons, List.length_nil] at *
    omega
  | case4 a mapping ni h ih =>
    intro hmap m hm
    rw [splitFaces.eq_2, if_neg h] at hm
    exact ih (by omega) m hm
  | case5 a b mapping ni h ih =>
    intro hmap m hm
    have hst := addFaceToChunk_fst_length [a, b] mapping ni
    rw [splitFaces.eq_3, if_pos h, splitFaces_nil] at hm
    simp only [List.isEmpty_nil, if_true, List.mem_singleton] at hm
    subst hm
    simp only [List.length_map, List.length_cons, List.length_nil] at *
    omega
  | case6 a b mapping ni h ih =>
    intro hmap m hm
    rw [splitFaces.eq_3, if_neg h] at hm
    exact ih (by omega) m hm
  | case7 a b c rest mapping ni h ih =>
    intro hmap m hm
    have hst := addFaceToChunk_fst_length [a, b, c] mapping ni
    rw [splitFaces.eq_4, if_pos h] at hm
    rcases List.mem_cons.mp hm with rfl | hm'
    · simp only [List.length_map, List.length_cons, List.length_nil] at *
      omega
    · exact ih (by simp only [List.length_nil]; omega) m hm'
  | case8 a b c rest mapping ni h ih =>
    intro hmap m hm
    rw [splitFaces.eq_4, if_neg h] at hm
    exact ih (by omega) m hm

theorem splitFaces_indices_sum (limit : Nat) (vertices : List UvVertex)
    (mid : Option Nat) (rest mapping newIndices : List Nat) :
    ((splitFaces limit vertices mid rest mapping newIndices).map
        (fun m => m.indices.length)).sum = newIndices.length + rest.length := by
  induction rest, mapping, newIndices using splitFaces.induct limit vertices mid with
  | case1 mapping ni hemp =>
    simp [splitFaces, hemp, List.isEmpty_iff.mp hemp]
  | case2 mapping ni hemp =>
    simp [splitFaces, hemp]
  | case3 a mapping ni h ih =>
    have hst := addFaceToChunk_snd_length [a] mapping ni
    rw [splitFaces.eq_2, if_pos h]
    simp only [List.map_cons, List.sum_cons, ih, List.length_cons, List.length_nil] at *
    omega
  | case4 a mapping ni h ih =>
    have hst := addFaceToChunk_snd_length [a] mapping ni
    rw [splitFaces.eq_2, if_neg h, ih]
    simp only [List.length_cons, List.length_nil] at *
    omega
  | case5 a b mapping ni h ih =>
    have hst := addFaceToChunk_snd_length [a, b] mapping ni
    rw [splitFaces.eq_3, if_pos h]
    simp only [List.map_cons, List.sum_cons, ih, List.length_cons, List.length_nil] at *
    omega
  | case6 a b mapping ni h ih =>
    have hst := addFaceToChunk_snd_length [a, b] mapping ni
    rw [splitFaces.eq_3, if_neg h, ih]
    simp only [List.length_cons, List.length_nil] at *
    omega
  | case7 a b c rest mapping ni h ih =>
    have hst := addFaceToChunk_snd_length [a, b, c] mapping ni
    rw [splitFaces.eq_4, if_pos h]
    simp only [List.map_cons, List.sum_cons, ih, List.length_cons, List.length_nil] at *
    omega
  | case8 a b c rest mapping ni h ih =>
    have hst := addFaceToChunk_snd_length [a, b, c] mapping ni
    rw [splitFaces.eq_4, if_neg h, ih]
    simp only [List.length_cons, List.length_nil] at *
    omega

theorem splitFaces_indices_dvd (limit : Nat) (vertices : List UvVertex)
    (mid : Option Nat) (rest mapping newIndices : List Nat) :
    3 ∣ rest.length → 3 ∣ newIndices.length →
    ∀ m ∈ splitFaces limit vertices mid rest mapping newIndices,
      3 ∣ m.indices.length := by
  induction rest, mapping, newIndices using splitFaces.induct limit vertices mid with
  | case1 mapping ni hemp =>
    intro _ hni m hm
    simp [splitFaces, hemp] at hm
  | case2 mapping ni hemp =>
    intro _ hni m hm
    simp [splitFaces, hemp] at hm
    subst hm
    exact hni
  | case3 a mapping ni h ih =>
    intro hdvd _ m _
    simp only [List.length_cons, List.length_nil] at hdvd
    omega
  | case4 a mapping ni h ih =>
    intro hdvd _ m _
    simp only [List.length_cons, List.length_nil] at hdvd
    omega
  | case5 a b mapping ni h ih =>
    intro hdvd _ m _
    simp only [List.length_cons, List.length_nil] at hdvd
    omega
  | case6 a b mapping ni h ih =>
    intro hdvd _ m _
    simp only [List.length_cons, List.length_nil] at hdvd
    omega
  | case7 a b c rest mapping ni h ih =>
    intro hdvd hni m hm
    have hst := addFaceToChunk_snd_length [a, b, c] mapping ni
    simp only [List.length_cons, List.length_nil] at hst hdvd
    rw [splitFaces.eq_4, if_pos h] at hm
    rcases List.mem_cons.mp hm with rfl | hm'
    · simp only [hst]
      omega
    · exact ih (by omega) (by simp) m hm'
  | case8 a b c rest mapping ni h ih =>
    intro hdvd hni m hm
    have hst := addFaceToChunk_snd_length [a, b, c] mapping ni
    simp only [List.length_cons, List.length_nil] at hst hdvd
    rw [splitFaces.eq_4, if_neg h] at hm
    exact ih (by omega) (by omega) m hm

theorem splitMeshesForVertexLimit_sum (meshes : List Mesh) :
    ((splitMeshesForVertexLimit meshes).map (fun m => m.indices.length)).sum
      = (meshes.map (fun m => m.indices.length)).sum := by
  induction meshes with
  | nil => simp [splitMeshesForVertexLimit]
  | cons mesh meshes ih =>
    simp only [splitMeshesForVertexLimit, List.flatMap_cons, List.map_append,
      List.sum_append, List.map_cons, List.sum_cons] at *
    rw [ih]
    by_cases hbig : MAX_VERTICES_PER_MESH < mesh.vertices.length
    · rw [if_pos hbig, splitFaces_indices_sum]
      simp
    · rw [if_neg hbig]
      simp

/-- **C1**: after limit-splitting every mesh record holds at most 65536
vertices; chunks are cut only at face (triangle) boundaries — each output
chunk's index buffer is a whole number of triangles and all input triangle
indices are preserved — and `_write_mesh` rejects any mesh whose vertex
count exceeds the limit. -/
theorem C1_vertex_ceiling :
    (∀ (meshes : List Mesh) (m : Mesh), m ∈ splitMeshesForVertexLimit meshes →
      m.vertices.length ≤ MAX_VERTICES_PER_MESH) ∧
    (∀ (meshes : List Mesh), (∀ mesh ∈ meshes, 3 ∣ mesh.indices.length) →
      (∀ m ∈ splitMeshesForVertexLimit meshes, 3 ∣ m.indices.length) ∧
      ((splitMeshesForVertexLimit meshes).map (fun m => m.indices.length)).sum
        = (meshes.map (fun m => m.indices.length)).sum) ∧
    (∀ (objName : String) (mesh : Mesh),
      MAX_VERTICES_PER_MESH < mesh.vertices.length →
      writeMesh objName mesh = .error (.tooManyVertices objName)) := by
  refine ⟨?_, ?_, ?_⟩
  · intro meshes m hm
    rw [splitMeshesForVertexLimit, List.mem_flatMap] at hm
    obtain ⟨mesh, _, hm⟩ := hm
    by_cases hbig : MAX_VERTICES_PER_MESH < mesh.vertices.length
    · rw [if_pos hbig] at hm
      exact splitFaces_vertex_bound MAX_VERTICES_PER_MESH mesh.vertices
        mesh.materialId mesh.indices [] [] (by norm_num [MAX_VERTICES_PER_MESH]) m hm
    · rw [if_neg hbig] at hm
      simp only [List.mem_singleton] at hm
      subst hm
      omega
  · intro meshes hdvd
    constructor
    · intro m hm
      rw [splitMeshesForVertexLimit, List.mem_flatMap] at hm
      obtain ⟨mesh, hmesh, hm⟩ := hm
      by_cases hbig : MAX_VERTICES_PER_MESH < mesh.vertices.length
      · rw [if_pos hbig] at hm
        exact splitFaces_indices_dvd MAX_VERTICES_PER_MESH mesh.vertices
          mesh.materialId mesh.indices [] [] (hdvd mesh hmesh) (by simp) m hm
      · rw [if_neg hbig] at hm
        simp only [List.mem_singleton] at hm
        subst hm
        exact hdvd _ hmesh
    · exact splitMeshesForVertexLimit_sum meshes
  · intro objName mesh hbig
    rw [writeMesh, if_pos hbig]

/-- Witness for C1 at concrete inputs: a one-triangle record passes through
the splitter within the ceiling, its index count stays a multiple of three,
and a 65537-vertex record is rejected by `_write_mesh`. -/
theorem C1_vertex_ceiling_witness :
    (⟨some 1, [default], [0, 0, 0]⟩ : Mesh).vertices.length ≤ MAX_VERTICES_PER_MESH ∧
    (3 ∣ (⟨some 1, [default], [0, 0, 0]⟩ : Mesh).indices.length) ∧
    writeMesh "Track" ⟨some 0, List.replicate 65537 default, [1, 2, 0]⟩ =
      .error (.tooManyVertices "Track") := by
  refine ⟨?_, ?_, ?_⟩
  · exact C1_vertex_ceiling.1 [⟨some 1, [default], [0, 0, 0]⟩] _
      (by simp [splitMeshesForVertexLimit, MAX_VERTICES_PER_MESH])
  · exact (C1_vertex_ceiling.2.1 [⟨some 1, [default], [0, 0, 0]⟩]
        (by intro mesh hmesh; simp only [List.mem_singleton] at hmesh; subst hmesh; simp)).1
      ⟨some 1, [default], [0, 0, 0]⟩
      (by simp [splitMeshesForVertexLimit, MAX_VERTICES_PER_MESH])
  · exact C1_vertex_ceiling.2.2 "Track" ⟨some 0, List.replicate 65537 default, [1, 2, 0]⟩
      (by rw [List.length_replicate]; norm_num [MAX_VERTICES_PER_MESH])

/-! ### C4: failed exports never touch the destination -/

theorem filepath_ne_tmp (filepath : String) : filepath ≠ filepath ++ ".tmp" := by
  intro h
  have hlen := congrArg String.length h
  rw [String.length_append] at hlen
  simp at hlen
  exact absurd hlen (by decide)

/-- **C4**: whenever the serializer raises, `export_kn5` returns status
`"error"`, the temporary file `filepath + ".tmp"` is deleted, and every other
path — the destination `filepath` in particular — is left exactly as it was;
a successful run installs the payload at `filepath` (the rename happens only
after the full write) and removes the temporary. -/
theorem C4_temp_file_protocol {β : Type} (filepath : String)
    (fs : String → Option β) :
    (∀ e : ExportError,
      (export_kn5 filepath (.error e) fs).1 = .error ∧
      (export_kn5 filepath (.error e) fs).2.2 (filepath ++ ".tmp") = none ∧
      (export_kn5 filepath (.error e) fs).2.2 filepath = fs filepath ∧
      (∀ p : String, p ≠ filepath ++ ".tmp" →
        (export_kn5 filepath (.error e) fs).2.2 p = fs p)) ∧
    (∀ (content : β) (warnings : List Warning),
      (export_kn5 filepath (.ok (content, warnings)) fs).1 = .success ∧
      (export_kn5 filepath (.ok (content, warnings)) fs).2.2 filepath = some content ∧
      (export_kn5 filepath (.ok (content, warnings)) fs).2.2 (filepath ++ ".tmp") = none) := by
  constructor
  · intro e
    refine ⟨rfl, ?_, ?_, ?_⟩
    · simp [export_kn5, updateFile]
    · simp [export_kn5, updateFile, (filepath_ne_tmp filepath)]
    · intro p hp
      simp [export_kn5, updateFile, hp]
  · intro content warnings
    refine ⟨?_, ?_, ?_⟩ <;>
      simp [export_kn5, updateFile, (filepath_ne_tmp filepath)]

/-- Witness for C4 at a concrete file system: a pre-existing destination
survives a failing export untouched and the temporary is gone; a succeeding
export replaces it. -/
theorem C4_temp_file_protocol_witness :
    (export_kn5 "track.kn5" (.error (.noMaterials "Road"))
        (fun p => if p = "track.kn5" then some [0] else (none : Option (List Nat)))).1
      = .error ∧
    (export_kn5 "track.kn5" (.error (.noMaterials "Road"))
        (fun p => if p = "track.kn5" then some [0] else none)).2.2 "track.kn5"
      = some [0] ∧
    (export_kn5 "track.kn5" (.error (.noMaterials "Road"))
        (fun p => if p = "track.kn5" then some [0] else none)).2.2 "track.kn5.tmp"
      = none ∧
    (export_kn5 "track.kn5" (.ok ([1], []))
        (fun p => if p = "track.kn5" then some [0] else none)).2.2 "track.kn5"
      = some [1] := by
  refine ⟨?_, ?_, ?_, ?_⟩
  · exact (C4_temp_file_protocol "track.kn5" _).1 (.noMaterials "Road") |>.1
  · have h := ((C4_temp_file_protocol "track.kn5"
        (fun p => if p = "track.kn5" then some [0] else none)).1
        (.noMaterials "Road")).2.2.1
    simpa using h
  · have h := ((C4_temp_file_protocol "track.kn5"
        (fun p => if p = "track.kn5" then some [0] else none)).1
        (.noMaterials "Road")).2.1
    simpa using h
  · exact ((C4_temp_file_protocol "track.kn5"
        (fun p => if p = "track.kn5" then some [0] else none)).2 [1] []).2.1

/-! ### C3: unassigned material slots abort the export -/

theorem mem_distinctInOrder_aux (a : Nat) (l : List Nat) :
    ∀ acc : List Nat,
      (a ∈ l.foldl (fun acc x => if x ∈ acc then acc else acc ++ [x]) acc ↔
        a ∈ acc ∨ a ∈ l) := by
  induction l with
  | nil => intro acc; simp
  | cons x xs ih =>
    intro acc
    rw [List.foldl_cons]
    by_cases hx : x ∈ acc
    · rw [if_pos hx, ih]
      constructor
      · rintro (h | h)
        · exact Or.inl h
        · exact Or.inr (List.mem_cons_of_mem x h)
      · rintro (h | h)
        · exact Or.inl h
        · rcases List.mem_cons.mp h with rfl | h'
          · exact Or.inl hx
          · exact Or.inr h'
    · rw [if_neg hx, ih]
      constructor
      · rintro (h | h)
        · rcases List.mem_append.mp h with h' | h'
          · exact Or.inl h'
          · simp only [List.mem_singleton] at h'
            subst h'
            exact Or.inr (List.mem_cons_self a xs)
        · exact Or.inr (List.mem_cons_of_mem x h)
      · rintro (h | h)
        · exact Or.inl (List.mem_append.mpr (Or.inl h))
        · rcases List.mem_cons.mp h with rfl | h'
          · exact Or.inl (List.mem_append.mpr (Or.inr (by simp)))
          · exact Or.inr h'

theorem mem_distinctInOrder (a : Nat) (l : List Nat) :
    a ∈ distinctInOrder l ↔ a ∈ l := by
  rw [distinctInOrder, mem_distinctInOrder_aux]
  simp

theorem usedMaterials_mem (md : MeshData) (t : Triangle) (ht : t ∈ md.triangles) :
    t.materialIndex ∈ usedMaterials md := by
  rw [usedMaterials, mem_distinctInOrder]
  exact List.mem_map_of_mem _ ht

theorem split_error_noMaterials (mp : List (String × Nat)) (objName : String)
    (dims : Vec3) (matrix : Mat4) (md : MeshData) (h : md.materials = []) :
    splitObjectByMaterials mp objName dims matrix md
      = .error (.noMaterials objName) := by
  simp [splitObjectByMaterials, h]

theorem foldlM_except_error {α β : Type} (f : β → α → Except ExportError β)
    (l : List α) (x : α) (hx : x ∈ l)
    (hf : ∀ b : β, ∃ e, f b x = .error e) :
    ∀ init : β, ∃ e, l.foldlM f init = .error e := by
  induction l with
  | nil => simp at hx
  | cons y ys ih =>
    intro init
    rcases List.mem_cons.mp hx with rfl | hmem
    · obtain ⟨e, he⟩ := hf init
      refine ⟨e, ?_⟩
      rw [List.foldlM_cons, he]
      rfl
    · cases hy : f init y with
      | error e =>
        refine ⟨e, ?_⟩
        rw [List.foldlM_cons, hy]
        rfl
      | ok b =>
        obtain ⟨e, he⟩ := ih hmem b
        refine ⟨e, ?_⟩
        rw [List.foldlM_cons, hy]
        exact he

theorem split_error_of_emptySlot (mp : List (String × Nat)) (objName : String)
    (dims : Vec3) (matrix : Mat4) (md : MeshData) (t : Triangle)
    (ht : t ∈ md.triangles)
    (hslot : md.materials.getD t.materialIndex none = none) :
    ∃ e, splitObjectByMaterials mp objName dims matrix md = .error e := by
  by_cases hmat : md.materials.isEmpty
  · exact ⟨.noMaterials objName, by simp [splitObjectByMaterials, hmat]⟩
  · rw [splitObjectByMaterials, if_neg hmat]
    apply foldlM_except_error _ _ t.materialIndex (usedMaterials_mem md t ht)
    intro b
    refine ⟨.emptySlot objName t.materialIndex, ?_⟩
    simp only [List.getD_eq_getElem?_getD] at hslot
    simp [hslot]

theorem foldl_distinct_const (l : List Nat) (hall : ∀ x ∈ l, x = 0) :
    ∀ acc, 0 ∈ acc →
      l.foldl (fun acc x => if x ∈ acc then acc else acc ++ [x]) acc = acc := by
  induction l with
  | nil => intro acc _; rfl
  | cons y ys ih =>
    intro acc hacc
    have hy : y = 0 := hall y (List.mem_cons_self y ys)
    subst hy
    rw [List.foldl_cons, if_pos hacc]
    exact ih (fun x hx => hall x (List.mem_cons_of_mem _ hx)) acc hacc

theorem distinctInOrder_all_zero (l : List Nat) (hne : l ≠ [])
    (hall : ∀ x ∈ l, x = 0) : distinctInOrder l = [0] := by
  rcases l with _ | ⟨y, ys⟩
  · simp at hne
  · have hy : y = 0 := hall y (by simp)
    subst hy
    rw [distinctInOrder, List.foldl_cons, if_neg (by simp), List.nil_append]
    exact foldl_distinct_const ys (fun x hx => hall x (List.mem_cons_of_mem _ hx))
      [0] (by simp)

theorem split_single_empty_slot (mp : List (String × Nat)) (objName : String)
    (dims : Vec3) (matrix : Mat4) (md : MeshData)
    (hmat : md.materials = [none]) (hne : md.triangles ≠ [])
    (hall : ∀ t ∈ md.triangles, t.materialIndex = 0) :
    splitObjectByMaterials mp objName dims matrix md
      = .error (.emptySlot objName 0) := by
  have huse : usedMaterials md = [0] := by
    rw [usedMaterials]
    apply distinctInOrder_all_zero
    · simp [hne]
    · intro x hx
      obtain ⟨t, ht, rfl⟩ := List.mem_map.mp hx
      exact hall t ht
  have hslot : md.materials[(0 : Nat)]?.getD none = none := by rw [hmat]; rfl
  rw [splitObjectByMaterials, if_neg (by simp [hmat]), huse]
  rw [List.foldlM_cons]
  simp [hslot]

theorem writeObject_error_of_split (mp : List (String × Nat)) (hasParent : Bool)
    (obj : Obj) (hhid : is_hidden_name obj.name = false)
    (hmesh : obj.otype = ObjType.mesh)
    (hsplit : ∃ e, splitObjectByMaterials mp obj.name obj.dimensions
        obj.matrixWorld obj.mesh = .error e) :
    ∃ e, writeObject mp hasParent obj = .error e := by
  obtain ⟨e, he⟩ := hsplit
  by_cases hch : obj.children.isEmpty
  · refine ⟨e, ?_⟩
    simp only [writeObject, hhid, hmesh, hch, writeMeshNode, he]
    simp
    rfl
  · refine ⟨.meshHasChildren obj.name, ?_⟩
    simp only [writeObject, hhid, hmesh, hch]
    simp
    rfl

theorem writeTopObjects_error (mp : List (String × Nat)) (l : List Obj)
    (obj : Obj) (hmem : obj ∈ l)
    (herr : ∃ e, writeObject mp false obj = .error e) :
    ∃ e, writeTopObjects mp l = .error e := by
  induction l with
  | nil => simp at hmem
  | cons o rest ih =>
    rcases List.mem_cons.mp hmem with rfl | hmem'
    · obtain ⟨e, he⟩ := herr
      exact ⟨e, by simp only [writeTopObjects, he]; rfl⟩
    · cases ho : writeObject mp false o with
      | error e => exact ⟨e, by simp only [writeTopObjects, ho]; rfl⟩
      | ok r =>
        obtain ⟨e, he⟩ := ih hmem'
        exact ⟨e, by simp only [writeTopObjects, ho, he]; rfl⟩

theorem collect_scan_fst (roots : List Obj) :
    ∀ acc : List Obj × List KstreeGroup,
      (roots.foldl collectScanStep acc).1 = acc.1 ++ roots.filter isRegularRoot := by
  induction roots with
  | nil => intro acc; simp
  | cons o rest ih =>
    intro acc
    rw [List.foldl_cons, List.filter_cons]
    by_cases h1 : is_hidden_name o.name = true
    · have hreg : isRegularRoot o = false := by simp [isRegularRoot, h1]
      rw [ih]
      simp [collectScanStep, h1, hreg]
    · by_cases h2 : o.excluded = true
      · have hreg : isRegularRoot o = false := by simp [isRegularRoot, h2]
        rw [ih]
        simp [collectScanStep, h1, h2, hreg]
      · cases hk : kstreeGroupName o.name with
        | some g =>
          have hreg : isRegularRoot o = false := by simp [isRegularRoot, h1, h2, hk]
          rw [ih]
          simp [collectScanStep, h1, h2, hk, hreg]
        | none =>
          have hreg : isRegularRoot o = true := by simp [isRegularRoot, h1, h2, hk]
          rw [ih]
          simp [collectScanStep, h1, h2, hk, hreg]

theorem mem_collect_regular (roots : List Obj) (obj : Obj) (hmem : obj ∈ roots)
    (hreg : isRegularRoot obj = true) :
    obj ∈ (collectAndGroupObjects roots).1 := by
  simp only [collectAndGroupObjects, List.mem_mergeSort]
  rw [collect_scan_fst roots ([], [])]
  simp only [List.nil_append, List.mem_filter]
  exact ⟨hmem, hreg⟩

theorem writeNodes_error_of_top (mp : List (String × Nat)) (roots : List Obj)
    (herr : ∃ e, writeTopObjects mp (collectAndGroupObjects roots).1 = .error e) :
    ∃ e, writeNodes mp roots = .error e := by
  obtain ⟨e, he⟩ := herr
  exact ⟨e, by simp [writeNodes, he]⟩

/-- **C3**: a mesh object using a material slot with no material assigned
makes the export fail: `_split_object_by_materials` raises — an object
without materials raises the no-materials error, a single empty used slot
raises the error naming the object and slot 0 — the exception unwinds the
node writer, `export_kn5` returns status `"error"`, the temporary file is
deleted, and the destination file is untouched. -/
theorem C3_unassigned_material_fatal :
    (∀ (mp : List (String × Nat)) (objName : String) (dims : Vec3)
        (matrix : Mat4) (md : MeshData), md.materials = [] →
        splitObjectByMaterials mp objName dims matrix md
          = .error (.noMaterials objName)) ∧
    (∀ (mp : List (String × Nat)) (objName : String) (dims : Vec3)
        (matrix : Mat4) (md : MeshData),
        md.materials = [none] → md.triangles ≠ [] →
        (∀ t ∈ md.triangles, t.materialIndex = 0) →
        splitObjectByMaterials mp objName dims matrix md
          = .error (.emptySlot objName 0)) ∧
    (∀ (mp : List (String × Nat)) (roots : List Obj) (obj : Obj),
        obj ∈ roots → is_hidden_name obj.name = false → obj.excluded = false →
        obj.otype = ObjType.mesh → kstreeGroupName obj.name = none →
        (obj.mesh.materials = [] ∨
          ∃ t ∈ obj.mesh.triangles,
            obj.mesh.materials.getD t.materialIndex none = none) →
        ∃ e, writeNodes mp roots = .error e ∧
          ∀ (fs : String → Option (List OutNode)) (filepath : String),
            (export_kn5 filepath (writeNodes mp roots) fs).1 = .error ∧
            (export_kn5 filepath (writeNodes mp roots) fs).2.2 filepath
              = fs filepath ∧
            (export_kn5 filepath (writeNodes mp roots) fs).2.2 (filepath ++ ".tmp")
              = none) := by
  refine ⟨split_error_noMaterials, split_single_empty_slot, ?_⟩
  intro mp roots obj hmem hhid hexc htype hk hbad
  have hsplit : ∃ e, splitObjectByMaterials mp obj.name obj.dimensions
      obj.matrixWorld obj.mesh = .error e := by
    rcases hbad with h | ⟨t, ht, hslot⟩
    · exact ⟨.noMaterials obj.name,
        split_error_noMaterials mp obj.name obj.dimensions obj.matrixWorld obj.mesh h⟩
    · exact split_error_of_emptySlot mp obj.name obj.dimensions obj.matrixWorld
        obj.mesh t ht hslot
  have hobj := writeObject_error_of_split mp false obj hhid htype hsplit
  have hmemc := mem_collect_regular roots obj hmem
    (by simp [isRegularRoot, hhid, hexc, hk])
  obtain ⟨e, he⟩ := writeNodes_error_of_top mp roots
    (writeTopObjects_error mp _ obj hmemc hobj)
  refine ⟨e, he, ?_⟩
  intro fs filepath
  rw [he]
  refine ⟨rfl, ?_, ?_⟩
  · simp [export_kn5, updateFile, filepath_ne_tmp filepath]
  · simp [export_kn5, updateFile]

/-- Witness for C3 at a concrete scene: a one-triangle mesh object `Road`
with a single empty material slot; the split raises the error naming `Road`
and slot 0, and the export of the scene errors without touching the
destination. -/
theorem C3_unassigned_material_fatal_witness :
    splitObjectByMaterials [] "Road" (1, 1, 1) Mat4.identity
        ⟨[(0, 0, 0)], [⟨0, (0, 0, 1), (0, 0), (1, 0, 0)⟩], [⟨0, (0, 0, 0)⟩],
          [none], false⟩
      = .error (.emptySlot "Road" 0) ∧
    (∃ e, writeNodes []
        [.node "Road" .mesh false Mat4.identity
          ⟨[(0, 0, 0)], [⟨0, (0, 0, 1), (0, 0), (1, 0, 0)⟩], [⟨0, (0, 0, 0)⟩],
            [none], false⟩
          (1, 1, 1) ⟨0, 0, true, true, false, true⟩ []] = .error e ∧
      ∀ (fs : String → Option (List OutNode)) (filepath : String),
        (export_kn5 filepath
          (writeNodes []
            [.node "Road" .mesh false Mat4.identity
              ⟨[(0, 0, 0)], [⟨0, (0, 0, 1), (0, 0), (1, 0, 0)⟩], [⟨0, (0, 0, 0)⟩],
                [none], false⟩
              (1, 1, 1) ⟨0, 0, true, true, false, true⟩ []]) fs).1
          = .error ∧
        (export_kn5 filepath
          (writeNodes []
            [.node "Road" .mesh false Mat4.identity
              ⟨[(0, 0, 0)], [⟨0, (0, 0, 1), (0, 0), (1, 0, 0)⟩], [⟨0, (0, 0, 0)⟩],
                [none], false⟩
              (1, 1, 1) ⟨0, 0, true, true, false, true⟩ []]) fs).2.2 filepath
          = fs filepath ∧
        (export_kn5 filepath
          (writeNodes []
            [.node "Road" .mesh false Mat4.identity
              ⟨[(0, 0, 0)], [⟨0, (0, 0, 1), (0, 0), (1, 0, 0)⟩], [⟨0, (0, 0, 0)⟩],
                [none], false⟩
              (1, 1, 1) ⟨0, 0, true, true, false, true⟩ []]) fs).2.2
          (filepath ++ ".tmp") = none) := by
  constructor
  · exact C3_unassigned_material_fatal.2.1 [] "Road" (1, 1, 1) Mat4.identity
      ⟨[(0, 0, 0)], [⟨0, (0, 0, 1), (0, 0), (1, 0, 0)⟩], [⟨0, (0, 0, 0)⟩],
        [none], false⟩
      rfl (by simp) (by intro t ht; simp at ht; subst ht; rfl)
  · exact C3_unassigned_material_fatal.2.2 []
      [.node "Road" .mesh false Mat4.identity
        ⟨[(0, 0, 0)], [⟨0, (0, 0, 1), (0, 0), (1, 0, 0)⟩], [⟨0, (0, 0, 0)⟩],
          [none], false⟩
        (1, 1, 1) ⟨0, 0, true, true, false, true⟩ []]
      (.node "Road" .mesh false Mat4.identity
        ⟨[(0, 0, 0)], [⟨0, (0, 0, 1), (0, 0), (1, 0, 0)⟩], [⟨0, (0, 0, 0)⟩],
          [none], false⟩
        (1, 1, 1) ⟨0, 0, true, true, false, true⟩ [])
      (by simp) (by decide) rfl rfl (by decide)
      (Or.inr ⟨⟨0, (0, 0, 0)⟩, by simp [Obj.mesh], rfl⟩)

/-! ### C7: bounding sphere is the AABB-midpoint sphere with true max radius -/

theorem foldl_maxStep_ge (f : Vec3 → ℚ) (l : List Vec3) :
    ∀ m : ℚ, m ≤ l.foldl (fun m v => if m < f v then f v else m) m ∧
      ∀ v ∈ l, f v ≤ l.foldl (fun m v => if m < f v then f v else m) m := by
  induction l with
  | nil => intro m; exact ⟨le_refl m, by simp⟩
  | cons a rest ih =>
    intro m
    rw [List.foldl_cons]
    have hstep : m ≤ (if m < f a then f a else m) ∧ f a ≤ (if m < f a then f a else m) := by
      constructor
      · split
        · next h => exact le_of_lt h
        · exact le_refl m
      · split
        · exact le_refl _
        · next h => exact le_of_not_lt h
    obtain ⟨h1, h2⟩ := ih (if m < f a then f a else m)
    refine ⟨hstep.1.trans h1, ?_⟩
    intro v hv
    rcases List.mem_cons.mp hv with rfl | hv'
    · exact hstep.2.trans h1
    · exact h2 v hv'

theorem foldl_maxStep_attained (f : Vec3 → ℚ) (l : List Vec3) :
    ∀ m : ℚ, l.foldl (fun m v => if m < f v then f v else m) m = m ∨
      ∃ v ∈ l, l.foldl (fun m v => if m < f v then f v else m) m = f v := by
  induction l with
  | nil => intro m; exact Or.inl rfl
  | cons a rest ih =>
    intro m
    rw [List.foldl_cons]
    rcases ih (if m < f a then f a else m) with h | ⟨v, hv, hfv⟩
    · rw [h]
      split
      · exact Or.inr ⟨a, List.mem_cons_self a rest, rfl⟩
      · exact Or.inl rfl
    · exact Or.inr ⟨v, List.mem_cons_of_mem a hv, hfv⟩

theorem foldl_minStep_le (f : Vec3 → ℚ) (l : List Vec3) :
    ∀ m : ℚ, l.foldl (fun m v => if f v < m then f v else m) m ≤ m ∧
      ∀ v ∈ l, l.foldl (fun m v => if f v < m then f v else m) m ≤ f v := by
  induction l with
  | nil => intro m; exact ⟨le_refl m, by simp⟩
  | cons a rest ih =>
    intro m
    rw [List.foldl_cons]
    have hstep : (if f a < m then f a else m) ≤ m ∧ (if f a < m then f a else m) ≤ f a := by
      constructor
      · split
        · next h => exact le_of_lt h
        · exact le_refl m
      · split
        · exact le_refl _
        · next h => exact le_of_not_lt h
    obtain ⟨h1, h2⟩ := ih (if f a < m then f a else m)
    refine ⟨h1.trans hstep.1, ?_⟩
    intro v hv
    rcases List.mem_cons.mp hv with rfl | hv'
    · exact h1.trans hstep.2
    · exact h2 v hv'

theorem foldl_minStep_attained (f : Vec3 → ℚ) (l : List Vec3) :
    ∀ m : ℚ, l.foldl (fun m v => if f v < m then f v else m) m = m ∨
      ∃ v ∈ l, l.foldl (fun m v => if f v < m then f v else m) m = f v := by
  induction l with
  | nil => intro m; exact Or.inl rfl
  | cons a rest ih =>
    intro m
    rw [List.foldl_cons]
    rcases ih (if f a < m then f a else m) with h | ⟨v, hv, hfv⟩
    · rw [h]
      split
      · exact Or.inr ⟨a, List.mem_cons_self a rest, rfl⟩
      · exact Or.inl rfl
    · exact Or.inr ⟨v, List.mem_cons_of_mem a hv, hfv⟩

theorem sphereMaxQ_spec (f : Vec3 → ℚ) (c : Vec3) (rest : List Vec3) :
    (∀ v ∈ c :: rest, f v ≤ sphereMaxQ f (c :: rest)) ∧
      ∃ v ∈ c :: rest, sphereMaxQ f (c :: rest) = f v := by
  obtain ⟨h1, h2⟩ := foldl_maxStep_ge f rest (f c)
  constructor
  · intro v hv
    rcases List.mem_cons.mp hv with rfl | hv'
    · exact h1
    · exact h2 v hv'
  · rcases foldl_maxStep_attained f rest (f c) with h | ⟨v, hv, hfv⟩
    · exact ⟨c, List.mem_cons_self c rest, h⟩
    · exact ⟨v, List.mem_cons_of_mem c hv, hfv⟩

theorem sphereMinQ_spec (f : Vec3 → ℚ) (c : Vec3) (rest : List Vec3) :
    (∀ v ∈ c :: rest, sphereMinQ f (c :: rest) ≤ f v) ∧
      ∃ v ∈ c :: rest, sphereMinQ f (c :: rest) = f v := by
  obtain ⟨h1, h2⟩ := foldl_minStep_le f rest (f c)
  constructor
  · intro v hv
    rcases List.mem_cons.mp hv with rfl | hv'
    · exact h1
    · exact h2 v hv'
  · rcases foldl_minStep_attained f rest (f c) with h | ⟨v, hv, hfv⟩
    · exact ⟨c, List.mem_cons_self c rest, h⟩
    · exact ⟨v, List.mem_cons_of_mem c hv, hfv⟩

theorem sqDist_nonneg (a b : Vec3) : 0 ≤ sqDist a b := by
  rw [sqDist]
  positivity

/-- **C7**: for every nonempty vertex list the written sphere center is the
midpoint of the axis-aligned bounding box (whose per-axis min/max are the
true extremes of the coordinates), the written radius is the maximum
Euclidean distance from that center to any vertex (attained, and an upper
bound), and hence every vertex lies within the sphere — exactly, so also
within any `ε`-slack. -/
theorem C7_bounding_sphere_correct (c : Vec3) (rest : List Vec3) :
    (∀ v ∈ c :: rest,
      sphereMinQ (fun v => v.1) (c :: rest) ≤ v.1 ∧
        v.1 ≤ sphereMaxQ (fun v => v.1) (c :: rest) ∧
      sphereMinQ (fun v => v.2.1) (c :: rest) ≤ v.2.1 ∧
        v.2.1 ≤ sphereMaxQ (fun v => v.2.1) (c :: rest) ∧
      sphereMinQ (fun v => v.2.2) (c :: rest) ≤ v.2.2 ∧
        v.2.2 ≤ sphereMaxQ (fun v => v.2.2) (c :: rest)) ∧
    ((∃ v ∈ c :: rest, sphereMinQ (fun v => v.1) (c :: rest) = v.1) ∧
     (∃ v ∈ c :: rest, sphereMaxQ (fun v => v.1) (c :: rest) = v.1)) ∧
    (boundingSphere (c :: rest)).1 =
      ((sphereMinQ (fun v => v.1) (c :: rest) + sphereMaxQ (fun v => v.1) (c :: rest)) / 2,
       (sphereMinQ (fun v => v.2.1) (c :: rest) + sphereMaxQ (fun v => v.2.1) (c :: rest)) / 2,
       (sphereMinQ (fun v => v.2.2) (c :: rest) + sphereMaxQ (fun v => v.2.2) (c :: rest)) / 2) ∧
    (∀ v ∈ c :: rest, sqDist v (boundingSphere (c :: rest)).1 ≤ (boundingSphere (c :: rest)).2) ∧
    (∃ v ∈ c :: rest, (boundingSphere (c :: rest)).2 = sqDist v (boundingSphere (c :: rest)).1) ∧
    (∀ v ∈ c :: rest,
      Real.sqrt ((sqDist v (boundingSphere (c :: rest)).1 : ℚ) : ℝ) ≤
        Real.sqrt (((boundingSphere (c :: rest)).2 : ℚ) : ℝ)) := by
  have hcontain : ∀ v ∈ c :: rest,
      sqDist v (boundingSphere (c :: rest)).1 ≤ (boundingSphere (c :: rest)).2 := by
    intro v hv
    have := (foldl_maxStep_ge (fun v => sqDist v (sphereCenter (c :: rest)))
      (c :: rest) 0).2 v hv
    exact this
  refine ⟨?_, ?_, ?_, hcontain, ?_, ?_⟩
  · intro v hv
    refine ⟨(sphereMinQ_spec _ c rest).1 v hv, (sphereMaxQ_spec _ c rest).1 v hv,
      (sphereMinQ_spec _ c rest).1 v hv, (sphereMaxQ_spec _ c rest).1 v hv,
      (sphereMinQ_spec _ c rest).1 v hv, (sphereMaxQ_spec _ c rest).1 v hv⟩
  · exact ⟨(sphereMinQ_spec (fun v => v.1) c rest).2, (sphereMaxQ_spec (fun v => v.1) c rest).2⟩
  · show sphereCenter (c :: rest) = _
    rw [sphereCenter]
    refine Prod.ext ?_ (Prod.ext ?_ ?_) <;> simp <;> ring
  · rcases foldl_maxStep_attained (fun v => sqDist v (sphereCenter (c :: rest)))
        (c :: rest) 0 with h | ⟨v, hv, hfv⟩
    · refine ⟨c, List.mem_cons_self c rest, ?_⟩
      have hle := hcontain c (List.mem_cons_self c rest)
      have hge := sqDist_nonneg c (boundingSphere (c :: rest)).1
      have hzero : (boundingSphere (c :: rest)).2 = 0 := h
      rw [hzero] at hle ⊢
      exact (le_antisymm hle hge).symm
    · exact ⟨v, hv, hfv⟩
  · intro v hv
    exact Real.sqrt_le_sqrt (by exact_mod_cast hcontain v hv)

/-- Witness for C7 at a concrete two-vertex record `[(0,0,0), (2,0,0)]`:
center `(1,0,0)`, squared radius `1`, containment at `(0,0,0)`. -/
theorem C7_bounding_sphere_correct_witness :
    ((0 : ℚ), (0 : ℚ), (0 : ℚ)).1 ≤ sphereMaxQ (fun v => v.1) [(0, 0, 0), (2, 0, 0)] ∧
    sqDist (0, 0, 0) (boundingSphere [(0, 0, 0), (2, 0, 0)]).1 ≤
      (boundingSphere [(0, 0, 0), (2, 0, 0)]).2 ∧
    boundingSphere [(0, 0, 0), (2, 0, 0)] = ((1, 0, 0), 1) := by
  refine ⟨?_, ?_, ?_⟩
  · have h := (C7_bounding_sphere_correct (0, 0, 0) [(2, 0, 0)]).1
      (0, 0, 0) (by simp)
    exact h.2.1
  · exact (C7_bounding_sphere_correct (0, 0, 0) [(2, 0, 0)]).2.2.2.1
      (0, 0, 0) (by simp)
  · norm_num [boundingSphere, sphereCenter, sphereRadiusSq, sphereMinQ,
      sphereMaxQ, sqDist]

/-! ### C9: PNG fallback when the conversion tool is absent -/

theorem processAllTextures_spec (e : Bool) (tool : String → TexconvOutcome)
    (textures : List (String × List Nat)) :
    processAllTextures e tool textures
      = (textures.map (fun t => (processTexture e (tool t.1) t.1 t.2).1),
         textures.flatMap (fun t => (processTexture e (tool t.1) t.1 t.2).2)) := by
  have key : ∀ (l : List (String × List Nat)) (acc : List (String × List Nat) × List Warning),
      l.foldl
        (fun acc t =>
          let r := processTexture e (tool t.1) t.1 t.2
          (acc.1 ++ [r.1], acc.2 ++ r.2)) acc
        = (acc.1 ++ l.map (fun t => (processTexture e (tool t.1) t.1 t.2).1),
           acc.2 ++ l.flatMap (fun t => (processTexture e (tool t.1) t.1 t.2).2)) := by
    intro l
    induction l with
    | nil => intro acc; simp
    | cons t rest ih =>
      intro acc
      rw [List.foldl_cons, ih]
      simp
  rw [processAllTextures, key]
  simp

/-- **C9**: textures that are already DDS, or any non-PNG format, always
pass through byte-for-byte with no warning; when `texconv.exe` is absent a
PNG texture passes through byte-for-byte and the returned warning list
names that texture (`Using original PNG for '...'`); and a full export with
the tool absent still succeeds, installing the untouched PNG bytes in the
texture section of the destination file with the warning surfaced. -/
theorem C9_png_fallback_when_tool_absent :
    (∀ (e : Bool) (outcome : TexconvOutcome) (name : String) (data : List Nat),
      is_dds_data data = true →
      processTexture e outcome name data = ((name, data), [])) ∧
    (∀ (e : Bool) (outcome : TexconvOutcome) (name : String) (data : List Nat),
      is_dds_data data = false → is_png_data data = false →
      processTexture e outcome name data = ((name, data), [])) ∧
    (∀ (outcome : TexconvOutcome) (name : String) (data : List Nat),
      is_dds_data data = false → is_png_data data = true →
      processTexture false outcome name data
        = ((name, data), [.texconvNotFound, .usingOriginalPng name])) ∧
    (∀ (tool : String → TexconvOutcome) (textures : List (String × List Nat))
        (mp : List (String × Nat)) (roots : List Obj) (name : String)
        (data : List Nat) (filepath : String) (fs : String → Option Kn5Payload)
        (nodes : List OutNode) (ws : List Warning),
      (name, data) ∈ textures → is_dds_data data = false → is_png_data data = true →
      writeNodes mp roots = .ok (nodes, ws) →
      (runExport false tool textures mp roots filepath fs).1 = .success ∧
      (∃ payload : Kn5Payload,
        (runExport false tool textures mp roots filepath fs).2.2 filepath
          = some payload ∧ (name, data) ∈ payload.textures) ∧
      Warning.usingOriginalPng name
        ∈ (runExport false tool textures mp roots filepath fs).2.1) := by
  have hdds : ∀ (e : Bool) (outcome : TexconvOutcome) (name : String) (data : List Nat),
      is_dds_data data = true → processTexture e outcome name data = ((name, data), []) := by
    intro e outcome name data h
    simp [processTexture, h]
  have hother : ∀ (e : Bool) (outcome : TexconvOutcome) (name : String) (data : List Nat),
      is_dds_data data = false → is_png_data data = false →
      processTexture e outcome name data = ((name, data), []) := by
    intro e outcome name data h1 h2
    simp [processTexture, h1, h2]
  have hpng : ∀ (outcome : TexconvOutcome) (name : String) (data : List Nat),
      is_dds_data data = false → is_png_data data = true →
      processTexture false outcome name data
        = ((name, data), [.texconvNotFound, .usingOriginalPng name]) := by
    intro outcome name data h1 h2
    simp [processTexture, h1, h2, convert_png_to_dds]
  refine ⟨hdds, hother, hpng, ?_⟩
  intro tool textures mp roots name data filepath fs nodes ws hmem h1 h2 hok
  have hrun : runExport false tool textures mp roots filepath fs
      = export_kn5 filepath
          (.ok (⟨(processAllTextures false tool textures).1, nodes⟩,
            (processAllTextures false tool textures).2 ++ ws)) fs := by
    simp [runExport, hok]
  have htex := processAllTextures_spec false tool textures
  have hmemtex : (name, data) ∈ (processAllTextures false tool textures).1 := by
    rw [htex]
    have := List.mem_map_of_mem
      (fun t : String × List Nat => (processTexture false (tool t.1) t.1 t.2).1) hmem
    simpa [hpng (tool name) name data h1 h2] using this
  have hmemwarn : Warning.usingOriginalPng name
      ∈ (processAllTextures false tool textures).2 := by
    rw [htex]
    simp only [List.mem_flatMap]
    exact ⟨(name, data), hmem, by simp [hpng (tool name) name data h1 h2]⟩
  refine ⟨?_, ?_, ?_⟩
  · rw [hrun]
    simp only [export_kn5]
    split <;> rfl
  · refine ⟨⟨(processAllTextures false tool textures).1, nodes⟩, ?_, hmemtex⟩
    rw [hrun]
    simp [export_kn5, updateFile, filepath_ne_tmp filepath]
  · rw [hrun]
    simp only [export_kn5]
    split <;> exact List.mem_append.mpr (Or.inl hmemwarn)

/-- Witness for C9 at concrete bytes: a five-byte PNG (`89 50 4E 47 00`)
passes through unchanged with the naming warning when the tool is absent; a
DDS blob passes through silently; and a one-texture export of an empty
scene succeeds with the PNG bytes installed at the destination. -/
theorem C9_png_fallback_when_tool_absent_witness :
    processTexture false .noOutput "leaf.png" [0x89, 0x50, 0x4E, 0x47, 0]
      = (("leaf.png", [0x89, 0x50, 0x4E, 0x47, 0]),
         [.texconvNotFound, .usingOriginalPng "leaf.png"]) ∧
    processTexture false .noOutput "rock.dds" [0x44, 0x44, 0x53, 0x20]
      = (("rock.dds", [0x44, 0x44, 0x53, 0x20]), []) ∧
    ((runExport false (fun _ => .noOutput) [("leaf.png", [0x89, 0x50, 0x4E, 0x47, 0])]
        [] [] "t.kn5" (fun _ => none)).1 = .success ∧
      (∃ payload : Kn5Payload,
        (runExport false (fun _ => .noOutput) [("leaf.png", [0x89, 0x50, 0x4E, 0x47, 0])]
          [] [] "t.kn5" (fun _ => none)).2.2 "t.kn5" = some payload ∧
        ("leaf.png", [0x89, 0x50, 0x4E, 0x47, 0]) ∈ payload.textures) ∧
      Warning.usingOriginalPng "leaf.png"
        ∈ (runExport false (fun _ => .noOutput) [("leaf.png", [0x89, 0x50, 0x4E, 0x47, 0])]
            [] [] "t.kn5" (fun _ => none)).2.1) := by
  refine ⟨?_, ?_, ?_⟩
  · exact C9_png_fallback_when_tool_absent.2.2.1 .noOutput "leaf.png"
      [0x89, 0x50, 0x4E, 0x47, 0] (by decide) (by decide)
  · exact C9_png_fallback_when_tool_absent.1 false .noOutput "rock.dds"
      [0x44, 0x44, 0x53, 0x20] (by decide)
  · exact C9_png_fallback_when_tool_absent.2.2.2 (fun _ => .noOutput)
      [("leaf.png", [0x89, 0x50, 0x4E, 0x47, 0])] [] [] "leaf.png"
      [0x89, 0x50, 0x4E, 0x47, 0] "t.kn5" (fun _ => none)
      [OutNode.plain "BlenderFile" 0 true] []
      (by simp) (by decide) (by decide)
      (by simp [writeNodes, collectAndGroupObjects, writeTopObjects])

/-! ### C5: instance-group merging — reserved pattern and merge shape -/

theorem split_oak_record_eval (objName : String) :
    splitObjectByMaterials [("leaf", 3)] objName (1, 1, 1) Mat4.identity
        ⟨[(0, 0, 0), (0, 1, 0), (1, 0, 0)],
         [⟨0, (0, 0, 1), (0, 0), (0, 0, 0)⟩, ⟨1, (0, 0, 1), (0, 0), (0, 0, 0)⟩,
          ⟨2, (0, 0, 1), (0, 0), (0, 0, 0)⟩],
         [⟨0, (0, 1, 2)⟩], [some ⟨"leaf", none⟩], false⟩
      = .ok [⟨some 3,
          [⟨(0, 0, 0), (0, 1, 0), (0, 0), (1, 0, 0)⟩,
           ⟨(0, 0, -1), (0, 1, 0), (0, 1), (1, 0, 0)⟩,
           ⟨(1, 0, 0), (0, 1, 0), (1, 0), (1, 0, 0)⟩],
          [1, 2, 0]⟩] := by
  have hleaf : is_hidden_name "leaf" = false := by decide
  norm_num [hleaf, splitObjectByMaterials, usedMaterials, distinctInOrder,
    materialPositionsGet, buildMaterialRecord, addTriangle, insertVertex,
    findVertexIdx, loopVertex, calculateUvs, convert_vector3, Mat4.applyToPoint,
    Mat4.identity, vertexHashKey, vertexEq, approxEqual, pyAbs, quantize,
    pyRound, QUANT, EPSILON, List.findIdx?_cons, List.findIdx?_nil,
    List.foldlM_cons, List.foldlM_nil]

theorem writeObject_oak_eval (name : String) (h : is_hidden_name name = false) :
    writeObject [("leaf", 3)] false
        (.node name .mesh false Mat4.identity
          ⟨[(0, 0, 0), (0, 1, 0), (1, 0, 0)],
           [⟨0, (0, 0, 1), (0, 0), (0, 0, 0)⟩, ⟨1, (0, 0, 1), (0, 0), (0, 0, 0)⟩,
            ⟨2, (0, 0, 1), (0, 0), (0, 0, 0)⟩],
           [⟨0, (0, 1, 2)⟩], [some ⟨"leaf", none⟩], false⟩
          (1, 1, 1) ⟨0, 0, true, true, false, true⟩ [])
      = .ok ([.mesh name 3 [1, 2, 0] 3], []) := by
  simp only [writeObject, writeChildObjects, writeMeshNode, Obj.name, Obj.otype,
    Obj.children, Obj.mesh, Obj.dimensions, Obj.matrixWorld, h]
  rw [split_oak_record_eval name]
  rfl

/-- **C5 counterexample**: three top-level mesh objects named
`GROUP_OAK_1`, `group_Oak_2`, `GROUP_OAK_3` do **not** match the reserved
pattern — it is `KSTREE_GROUP_<name>_<number>`, not `GROUP_<name>_<number>`
— so no instance group is formed and the scene exports as a root with three
separate mesh nodes under the original names; no node named `OAK` exists. -/
theorem C5_reserved_group_pattern_counterexample :
    kstreeGroupName "GROUP_OAK_1" = none ∧
    kstreeGroupName "group_Oak_2" = none ∧
    kstreeGroupName "GROUP_OAK_3" = none ∧
    writeNodes [("leaf", 3)]
        [.node "GROUP_OAK_1" .mesh false Mat4.identity
          ⟨[(0, 0, 0), (0, 1, 0), (1, 0, 0)],
           [⟨0, (0, 0, 1), (0, 0), (0, 0, 0)⟩, ⟨1, (0, 0, 1), (0, 0), (0, 0, 0)⟩,
            ⟨2, (0, 0, 1), (0, 0), (0, 0, 0)⟩],
           [⟨0, (0, 1, 2)⟩], [some ⟨"leaf", none⟩], false⟩
          (1, 1, 1) ⟨0, 0, true, true, false, true⟩ [],
         .node "group_Oak_2" .mesh false Mat4.identity
          ⟨[(0, 0, 0), (0, 1, 0), (1, 0, 0)],
           [⟨0, (0, 0, 1), (0, 0), (0, 0, 0)⟩, ⟨1, (0, 0, 1), (0, 0), (0, 0, 0)⟩,
            ⟨2, (0, 0, 1), (0, 0), (0, 0, 0)⟩],
           [⟨0, (0, 1, 2)⟩], [some ⟨"leaf", none⟩], false⟩
          (1, 1, 1) ⟨0, 0, true, true, false, true⟩ [],
         .node "GROUP_OAK_3" .mesh false Mat4.identity
          ⟨[(0, 0, 0), (0, 1, 0), (1, 0, 0)],
           [⟨0, (0, 0, 1), (0, 0), (0, 0, 0)⟩, ⟨1, (0, 0, 1), (0, 0), (0, 0, 0)⟩,
            ⟨2, (0, 0, 1), (0, 0), (0, 0, 0)⟩],
           [⟨0, (0, 1, 2)⟩], [some ⟨"leaf", none⟩], false⟩
          (1, 1, 1) ⟨0, 0, true, true, false, true⟩ []]
      = .ok ([.plain "BlenderFile" 3 true,
              .mesh "GROUP_OAK_1" 3 [1, 2, 0] 3,
              .mesh "group_Oak_2" 3 [1, 2, 0] 3,
              .mesh "GROUP_OAK_3" 3 [1, 2, 0] 3], []) := by
  have hk1 : kstreeGroupName "GROUP_OAK_1" = none := by decide
  have hk2 : kstreeGroupName "group_Oak_2" = none := by decide
  have hk3 : kstreeGroupName "GROUP_OAK_3" = none := by decide
  have hh1 : is_hidden_name "GROUP_OAK_1" = false := by decide
  have hh2 : is_hidden_name "group_Oak_2" = false := by decide
  have hh3 : is_hidden_name "GROUP_OAK_3" = false := by decide
  have hcollect : collectAndGroupObjects
      [.node "GROUP_OAK_1" .mesh false Mat4.identity
        ⟨[(0, 0, 0), (0, 1, 0), (1, 0, 0)],
         [⟨0, (0, 0, 1), (0, 0), (0, 0, 0)⟩, ⟨1, (0, 0, 1), (0, 0), (0, 0, 0)⟩,
          ⟨2, (0, 0, 1), (0, 0), (0, 0, 0)⟩],
         [⟨0, (0, 1, 2)⟩], [some ⟨"leaf", none⟩], false⟩
        (1, 1, 1) ⟨0, 0, true, true, false, true⟩ [],
       .node "group_Oak_2" .mesh false Mat4.identity
        ⟨[(0, 0, 0), (0, 1, 0), (1, 0, 0)],
         [⟨0, (0, 0, 1), (0, 0), (0, 0, 0)⟩, ⟨1, (0, 0, 1), (0, 0), (0, 0, 0)⟩,
          ⟨2, (0, 0, 1), (0, 0), (0, 0, 0)⟩],
         [⟨0, (0, 1, 2)⟩], [some ⟨"leaf", none⟩], false⟩
        (1, 1, 1) ⟨0, 0, true, true, false, true⟩ [],
       .node "GROUP_OAK_3" .mesh false Mat4.identity
        ⟨[(0, 0, 0), (0, 1, 0), (1, 0, 0)],
         [⟨0, (0, 0, 1), (0, 0), (0, 0, 0)⟩, ⟨1, (0, 0, 1), (0, 0), (0, 0, 0)⟩,
          ⟨2, (0, 0, 1), (0, 0), (0, 0, 0)⟩],
         [⟨0, (0, 1, 2)⟩], [some ⟨"leaf", none⟩], false⟩
        (1, 1, 1) ⟨0, 0, true, true, false, true⟩ []]
      = ([.node "GROUP_OAK_1" .mesh false Mat4.identity
           ⟨[(0, 0, 0), (0, 1, 0), (1, 0, 0)],
            [⟨0, (0, 0, 1), (0, 0), (0, 0, 0)⟩, ⟨1, (0, 0, 1), (0, 0), (0, 0, 0)⟩,
             ⟨2, (0, 0, 1), (0, 0), (0, 0, 0)⟩],
            [⟨0, (0, 1, 2)⟩], [some ⟨"leaf", none⟩], false⟩
           (1, 1, 1) ⟨0, 0, true, true, false, true⟩ [],
          .node "group_Oak_2" .mesh false Mat4.identity
           ⟨[(0, 0, 0), (0, 1, 0), (1, 0, 0)],
            [⟨0, (0, 0, 1), (0, 0), (0, 0, 0)⟩, ⟨1, (0, 0, 1), (0, 0), (0, 0, 0)⟩,
             ⟨2, (0, 0, 1), (0, 0), (0, 0, 0)⟩],
            [⟨0, (0, 1, 2)⟩], [some ⟨"leaf", none⟩], false⟩
           (1, 1, 1) ⟨0, 0, true, true, false, true⟩ [],
          .node "GROUP_OAK_3" .mesh false Mat4.identity
           ⟨[(0, 0, 0), (0, 1, 0), (1, 0, 0)],
            [⟨0, (0, 0, 1), (0, 0), (0, 0, 0)⟩, ⟨1, (0, 0, 1), (0, 0), (0, 0, 0)⟩,
             ⟨2, (0, 0, 1), (0, 0), (0, 0, 0)⟩],
            [⟨0, (0, 1, 2)⟩], [some ⟨"leaf", none⟩], false⟩
           (1, 1, 1) ⟨0, 0, true, true, false, true⟩ []], []) := by
    simp only [collectAndGroupObjects, List.foldl_cons, List.foldl_nil,
      collectScanStep, Obj.name, Obj.excluded, Obj.children, hk1, hk2, hk3,
      hh1, hh2, hh3]
    rw [List.mergeSort_of_sorted (by
      simp [List.pairwise_cons, Obj.children])]
    simp
  have h1 := writeObject_oak_eval "GROUP_OAK_1" hh1
  have h2 := writeObject_oak_eval "group_Oak_2" hh2
  have h3 := writeObject_oak_eval "GROUP_OAK_3" hh3
  refine ⟨hk1, hk2, hk3, ?_⟩
  simp only [writeNodes, hcollect, List.mergeSort_nil, List.foldl_nil,
    writeTopObjects, h1, h2, h3]
  rfl

theorem extract_oak_record_eval :
    extractTreeMeshData [("leaf", 3)] Mat4.identity
        ⟨[(0, 0, 0), (0, 1, 0), (1, 0, 0)],
         [⟨0, (0, 0, 1), (0, 0), (0, 0, 0)⟩, ⟨1, (0, 0, 1), (0, 0), (0, 0, 0)⟩,
          ⟨2, (0, 0, 1), (0, 0), (0, 0, 0)⟩],
         [⟨0, (0, 1, 2)⟩], [some ⟨"leaf", none⟩], false⟩
      = [([⟨(0, 0, 0), (0, 1, 0), (0, 0), (1, 0, 0)⟩,
           ⟨(0, 0, -1), (0, 1, 0), (0, 0), (1, 0, 0)⟩,
           ⟨(1, 0, 0), (0, 1, 0), (0, 0), (1, 0, 0)⟩],
          [1, 2, 0], 3)] := by
  have hleaf : is_hidden_name "leaf" = false := by decide
  norm_num [hleaf, extractTreeMeshData, extractSlotStep, usedMaterials, distinctInOrder,
    materialPositionsGet, buildMaterialRecord, addTriangle, insertVertex,
    findVertexIdx, loopVertex, convert_vector3, Mat4.applyToPoint,
    Mat4.identity, vertexHashKey, vertexEq, approxEqual, pyAbs, quantize,
    pyRound, QUANT, EPSILON, List.findIdx?_cons, List.findIdx?_nil,
    -Prod.mk_zero_zero, -Prod.mk_one_one]

theorem writeKstree_oak_eval (n1 n2 n3 : String) :
    writeKstreeGroup [("leaf", 3)] "OAK"
        [.node n1 .mesh false Mat4.identity
          ⟨[(0, 0, 0), (0, 1, 0), (1, 0, 0)],
           [⟨0, (0, 0, 1), (0, 0), (0, 0, 0)⟩, ⟨1, (0, 0, 1), (0, 0), (0, 0, 0)⟩,
            ⟨2, (0, 0, 1), (0, 0), (0, 0, 0)⟩],
           [⟨0, (0, 1, 2)⟩], [some ⟨"leaf", none⟩], false⟩
          (1, 1, 1) ⟨0, 0, true, true, false, true⟩ [],
         .node n2 .mesh false Mat4.identity
          ⟨[(0, 0, 0), (0, 1, 0), (1, 0, 0)],
           [⟨0, (0, 0, 1), (0, 0), (0, 0, 0)⟩, ⟨1, (0, 0, 1), (0, 0), (0, 0, 0)⟩,
            ⟨2, (0, 0, 1), (0, 0), (0, 0, 0)⟩],
           [⟨0, (0, 1, 2)⟩], [some ⟨"leaf", none⟩], false⟩
          (1, 1, 1) ⟨0, 0, true, true, false, true⟩ [],
         .node n3 .mesh false Mat4.identity
          ⟨[(0, 0, 0), (0, 1, 0), (1, 0, 0)],
           [⟨0, (0, 0, 1), (0, 0), (0, 0, 0)⟩, ⟨1, (0, 0, 1), (0, 0), (0, 0, 0)⟩,
            ⟨2, (0, 0, 1), (0, 0), (0, 0, 0)⟩],
           [⟨0, (0, 1, 2)⟩], [some ⟨"leaf", none⟩], false⟩
          (1, 1, 1) ⟨0, 0, true, true, false, true⟩ []]
      = ([.mesh "OAK" 9 [1, 2, 0, 4, 5, 3, 7, 8, 6] 3], []) := by
  simp only [writeKstreeGroup, Obj.otype, Obj.matrixWorld, Obj.mesh,
    List.filter_cons, List.filter_nil, beq_self_eq_true, if_true,
    List.flatMap_cons, List.flatMap_nil, extract_oak_record_eval]
  rfl

/-- **C5 (amended)**: with the actual reserved prefix `KSTREE_GROUP_`, three
top-level mesh objects named `KSTREE_GROUP_OAK_1`, `KSTREE_GROUP_OAK_3`,
`kstree_group_Oak_2` (mixed case, case-insensitive on the group name) all
match the pattern and are merged into exactly one mesh node named `OAK`
(case of the first occurrence), whose vertex count `9` equals the sum of the
three objects' post-dedup vertex counts, instead of three individual nodes. -/
theorem C5_instance_merge_amended :
    kstreeGroupName "KSTREE_GROUP_OAK_1" = some "OAK" ∧
    kstreeGroupName "KSTREE_GROUP_OAK_3" = some "OAK" ∧
    kstreeGroupName "kstree_group_Oak_2" = some "Oak" ∧
    writeNodes [("leaf", 3)]
        [.node "KSTREE_GROUP_OAK_1" .mesh false Mat4.identity
          ⟨[(0, 0, 0), (0, 1, 0), (1, 0, 0)],
           [⟨0, (0, 0, 1), (0, 0), (0, 0, 0)⟩, ⟨1, (0, 0, 1), (0, 0), (0, 0, 0)⟩,
            ⟨2, (0, 0, 1), (0, 0), (0, 0, 0)⟩],
           [⟨0, (0, 1, 2)⟩], [some ⟨"leaf", none⟩], false⟩
          (1, 1, 1) ⟨0, 0, true, true, false, true⟩ [],
         .node "KSTREE_GROUP_OAK_3" .mesh false Mat4.identity
          ⟨[(0, 0, 0), (0, 1, 0), (1, 0, 0)],
           [⟨0, (0, 0, 1), (0, 0), (0, 0, 0)⟩, ⟨1, (0, 0, 1), (0, 0), (0, 0, 0)⟩,
            ⟨2, (0, 0, 1), (0, 0), (0, 0, 0)⟩],
           [⟨0, (0, 1, 2)⟩], [some ⟨"leaf", none⟩], false⟩
          (1, 1, 1) ⟨0, 0, true, true, false, true⟩ [],
         .node "kstree_group_Oak_2" .mesh false Mat4.identity
          ⟨[(0, 0, 0), (0, 1, 0), (1, 0, 0)],
           [⟨0, (0, 0, 1), (0, 0), (0, 0, 0)⟩, ⟨1, (0, 0, 1), (0, 0), (0, 0, 0)⟩,
            ⟨2, (0, 0, 1), (0, 0), (0, 0, 0)⟩],
           [⟨0, (0, 1, 2)⟩], [some ⟨"leaf", none⟩], false⟩
          (1, 1, 1) ⟨0, 0, true, true, false, true⟩ []]
      = .ok ([.plain "BlenderFile" 1 true,
              .mesh "OAK" 9 [1, 2, 0, 4, 5, 3, 7, 8, 6] 3], []) ∧
    ([(⟨[(0, 0, 0), (0, 1, 0), (1, 0, 0)],
        [⟨0, (0, 0, 1), (0, 0), (0, 0, 0)⟩, ⟨1, (0, 0, 1), (0, 0), (0, 0, 0)⟩,
         ⟨2, (0, 0, 1), (0, 0), (0, 0, 0)⟩],
        [⟨0, (0, 1, 2)⟩], [some ⟨"leaf", none⟩], false⟩ : MeshData),
      ⟨[(0, 0, 0), (0, 1, 0), (1, 0, 0)],
       [⟨0, (0, 0, 1), (0, 0), (0, 0, 0)⟩, ⟨1, (0, 0, 1), (0, 0), (0, 0, 0)⟩,
        ⟨2, (0, 0, 1), (0, 0), (0, 0, 0)⟩],
       [⟨0, (0, 1, 2)⟩], [some ⟨"leaf", none⟩], false⟩,
      ⟨[(0, 0, 0), (0, 1, 0), (1, 0, 0)],
       [⟨0, (0, 0, 1), (0, 0), (0, 0, 0)⟩, ⟨1, (0, 0, 1), (0, 0), (0, 0, 0)⟩,
        ⟨2, (0, 0, 1), (0, 0), (0, 0, 0)⟩],
       [⟨0, (0, 1, 2)⟩], [some ⟨"leaf", none⟩], false⟩].map
      (fun md => ((extractTreeMeshData [("leaf", 3)] Mat4.identity md).map
        (fun r => r.1.length)).sum)).sum = 9 := by
  have hk1 : kstreeGroupName "KSTREE_GROUP_OAK_1" = some "OAK" := by decide
  have hk3 : kstreeGroupName "KSTREE_GROUP_OAK_3" = some "OAK" := by decide
  have hk2 : kstreeGroupName "kstree_group_Oak_2" = some "Oak" := by decide
  have hh1 : is_hidden_name "KSTREE_GROUP_OAK_1" = false := by decide
  have hh3 : is_hidden_name "KSTREE_GROUP_OAK_3" = false := by decide
  have hh2 : is_hidden_name "kstree_group_Oak_2" = false := by decide
  have hl1 : pyToLower "OAK" = "oak" := by decide
  have hl2 : pyToLower "Oak" = "oak" := by decide
  have hs13 : pyStringLe "KSTREE_GROUP_OAK_1" "KSTREE_GROUP_OAK_3" = true := by decide
  have hs12 : pyStringLe "KSTREE_GROUP_OAK_1" "kstree_group_Oak_2" = true := by decide
  have hs32 : pyStringLe "KSTREE_GROUP_OAK_3" "kstree_group_Oak_2" = true := by decide
  have hcollect : collectAndGroupObjects
      [.node "KSTREE_GROUP_OAK_1" .mesh false Mat4.identity
        ⟨[(0, 0, 0), (0, 1, 0), (1, 0, 0)],
         [⟨0, (0, 0, 1), (0, 0), (0, 0, 0)⟩, ⟨1, (0, 0, 1), (0, 0), (0, 0, 0)⟩,
          ⟨2, (0, 0, 1), (0, 0), (0, 0, 0)⟩],
         [⟨0, (0, 1, 2)⟩], [some ⟨"leaf", none⟩], false⟩
        (1, 1, 1) ⟨0, 0, true, true, false, true⟩ [],
       .node "KSTREE_GROUP_OAK_3" .mesh false Mat4.identity
        ⟨[(0, 0, 0), (0, 1, 0), (1, 0, 0)],
         [⟨0, (0, 0, 1), (0, 0), (0, 0, 0)⟩, ⟨1, (0, 0, 1), (0, 0), (0, 0, 0)⟩,
          ⟨2, (0, 0, 1), (0, 0), (0, 0, 0)⟩],
         [⟨0, (0, 1, 2)⟩], [some ⟨"leaf", none⟩], false⟩
        (1, 1, 1) ⟨0, 0, true, true, false, true⟩ [],
       .node "kstree_group_Oak_2" .mesh false Mat4.identity
        ⟨[(0, 0, 0), (0, 1, 0), (1, 0, 0)],
         [⟨0, (0, 0, 1), (0, 0), (0, 0, 0)⟩, ⟨1, (0, 0, 1), (0, 0), (0, 0, 0)⟩,
          ⟨2, (0, 0, 1), (0, 0), (0, 0, 0)⟩],
         [⟨0, (0, 1, 2)⟩], [some ⟨"leaf", none⟩], false⟩
        (1, 1, 1) ⟨0, 0, true, true, false, true⟩ []]
      = ([], [⟨"oak", "OAK",
          [.node "KSTREE_GROUP_OAK_1" .mesh false Mat4.identity
            ⟨[(0, 0, 0), (0, 1, 0), (1, 0, 0)],
             [⟨0, (0, 0, 1), (0, 0), (0, 0, 0)⟩, ⟨1, (0, 0, 1), (0, 0), (0, 0, 0)⟩,
              ⟨2, (0, 0, 1), (0, 0), (0, 0, 0)⟩],
             [⟨0, (0, 1, 2)⟩], [some ⟨"leaf", none⟩], false⟩
            (1, 1, 1) ⟨0, 0, true, true, false, true⟩ [],
           .node "KSTREE_GROUP_OAK_3" .mesh false Mat4.identity
            ⟨[(0, 0, 0), (0, 1, 0), (1, 0, 0)],
             [⟨0, (0, 0, 1), (0, 0), (0, 0, 0)⟩, ⟨1, (0, 0, 1), (0, 0), (0, 0, 0)⟩,
              ⟨2, (0, 0, 1), (0, 0), (0, 0, 0)⟩],
             [⟨0, (0, 1, 2)⟩], [some ⟨"leaf", none⟩], false⟩
            (1, 1, 1) ⟨0, 0, true, true, false, true⟩ [],
           .node "kstree_group_Oak_2" .mesh false Mat4.identity
            ⟨[(0, 0, 0), (0, 1, 0), (1, 0, 0)],
             [⟨0, (0, 0, 1), (0, 0), (0, 0, 0)⟩, ⟨1, (0, 0, 1), (0, 0), (0, 0, 0)⟩,
              ⟨2, (0, 0, 1), (0, 0), (0, 0, 0)⟩],
             [⟨0, (0, 1, 2)⟩], [some ⟨"leaf", none⟩], false⟩
            (1, 1, 1) ⟨0, 0, true, true, false, true⟩ []]⟩]) := by
    simp only [collectAndGroupObjects, List.foldl_cons, List.foldl_nil,
      collectScanStep, Obj.name, Obj.excluded, hk1, hk2, hk3, hh1, hh2, hh3,
      addToGroups, hl1, hl2, List.any_nil, List.any_cons, beq_self_eq_true,
      Bool.or_true, Bool.true_or, Bool.or_false, List.nil_append,
      List.map_cons, List.map_nil, List.cons_append, List.append_nil,
      List.mergeSort_nil]
    simp
    exact List.mergeSort_of_sorted (by
      simp [List.pairwise_cons, Obj.name, hs13, hs12, hs32])
  refine ⟨hk1, hk3, hk2, ?_, ?_⟩
  · simp only [writeNodes, hcollect, List.mergeSort_nil,
      List.mergeSort_singleton, List.foldl_cons, List.foldl_nil,
      List.nil_append, List.append_nil]
    rw [writeKstree_oak_eval]
    rfl
  · simp only [List.map_cons, List.map_nil, extract_oak_record_eval]
    rfl

theorem charListLe_total : ∀ (as bs : List Char),
    (charListLe as bs || charListLe bs as) = true
  | [], [] => by simp [charListLe]
  | [], _ :: _ => by simp [charListLe]
  | _ :: _, [] => by simp [charListLe]
  | a :: as, b :: bs => by
    by_cases hab : a < b
    · simp [charListLe, hab]
    · by_cases hba : b < a
      · simp [charListLe, hab, hba]
      · simpa [charListLe, hab, hba] using charListLe_total as bs

theorem charListLe_trans : ∀ (as bs cs : List Char),
    charListLe as bs = true → charListLe bs cs = true → charListLe as cs = true
  | [], _, cs, _, _ => by simp [charListLe]
  | _ :: _, [], _, h1, _ => by simp [charListLe] at h1
  | _ :: _, _ :: _, [], _, h2 => by simp [charListLe] at h2
  | a :: as, b :: bs, c :: cs, h1, h2 => by
    simp only [charListLe] at h1 h2 ⊢
    by_cases hab : a < b
    · by_cases hbc : b < c
      · simp [lt_trans hab hbc]
      · by_cases hcb : c < b
        · simp [hbc, hcb] at h2
        · have hbc' : b = c := le_antisymm (not_lt.mp hcb) (not_lt.mp hbc)
          simp [hbc' ▸ hab]
    · by_cases hba : b < a
      · simp [hab, hba] at h1
      · have hab' : a = b := le_antisymm (not_lt.mp hba) (not_lt.mp hab)
        subst hab'
        by_cases hac : a < c
        · simp [hac]
        · by_cases hca : c < a
          · simp [hac, hca] at h2
          · simp only [hac, hca, if_false, ite_false, if_neg] at h2 ⊢
            simp [lt_irrefl] at h1
            exact charListLe_trans as bs cs h1 h2

theorem except_bind_ok {ε α β : Type} (r : α) (f : α → Except ε β) :
    (Except.ok r >>= f) = f r := rfl

theorem except_bind_error {ε α β : Type} (e : ε) (f : α → Except ε β) :
    ((Except.error e : Except ε α) >>= f) = .error e := rfl

theorem groupFoldOut (mp : List (String × Nat)) :
    ∀ (gs : List KstreeGroup) (init : List OutNode × List Warning),
      gs.foldl (fun acc g =>
        (acc.1 ++ (writeKstreeGroup mp g.displayName g.objects).1,
         acc.2 ++ (writeKstreeGroup mp g.displayName g.objects).2)) init
      = (init.1 ++ gs.flatMap
            (fun g => (writeKstreeGroup mp g.displayName g.objects).1),
         init.2 ++ gs.flatMap
            (fun g => (writeKstreeGroup mp g.displayName g.objects).2))
  | [], init => by simp
  | g :: gs, init => by
    simp only [List.foldl_cons, List.flatMap_cons]
    rw [groupFoldOut mp gs]
    simp [List.append_assoc]

/-- **C6**: whenever `NodeWriter.write` succeeds, the node list starts with a
synthetic root `PlainNode` named `BlenderFile` whose child count is the
number of top-level non-excluded, non-hidden regular objects plus the number
of distinct instance groups (groups with no mesh objects or no vertices
included), followed first by the instance-group nodes in an order sorted by
group key and then by all regular top-level objects' nodes. -/
theorem C6_root_structure (mp : List (String × Nat)) (roots : List Obj)
    (nodes : List OutNode) (warns : List Warning)
    (h : writeNodes mp roots = .ok (nodes, warns)) :
    ∃ (gs : List KstreeGroup) (rest : List OutNode) (restWarns : List Warning),
      gs.Perm (collectAndGroupObjects roots).2 ∧
      gs.Pairwise (fun a b => pyStringLe a.key b.key = true) ∧
      writeTopObjects mp (collectAndGroupObjects roots).1 = .ok (rest, restWarns) ∧
      nodes =
        OutNode.plain "BlenderFile"
            ((collectAndGroupObjects roots).1.length +
              (collectAndGroupObjects roots).2.length) true ::
          (gs.flatMap (fun g => (writeKstreeGroup mp g.displayName g.objects).1)
            ++ rest) := by
  simp only [writeNodes] at h
  cases hrest : writeTopObjects mp (collectAndGroupObjects roots).1 with
  | error e =>
    rw [hrest, except_bind_error] at h
    exact absurd h (by simp)
  | ok r =>
    obtain ⟨r1, r2⟩ := r
    rw [hrest, except_bind_ok] at h
    rw [groupFoldOut] at h
    simp only [List.nil_append, pure, Except.pure, Except.ok.injEq,
      Prod.mk.injEq] at h
    refine ⟨(collectAndGroupObjects roots).2.mergeSort
        (fun a b => pyStringLe a.key b.key), r1, r2,
      List.mergeSort_perm _ _,
      List.sorted_mergeSort
        (fun a b c hab hbc =>
          charListLe_trans a.key.toList b.key.toList c.key.toList hab hbc)
        (fun a b => charListLe_total a.key.toList b.key.toList) _,
      rfl, ?_⟩
    exact h.1.symm

theorem C6_root_structure_witness :
    writeNodes [("leaf", 3)]
        [.node "KSTREE_GROUP_OAK_1" .curve false Mat4.identity
          ⟨[(0, 0, 0), (0, 1, 0), (1, 0, 0)],
           [⟨0, (0, 0, 1), (0, 0), (0, 0, 0)⟩, ⟨1, (0, 0, 1), (0, 0), (0, 0, 0)⟩,
            ⟨2, (0, 0, 1), (0, 0), (0, 0, 0)⟩],
           [⟨0, (0, 1, 2)⟩], [some ⟨"leaf", none⟩], false⟩
          (1, 1, 1) ⟨0, 0, true, true, false, true⟩ [],
         .node "Road" .mesh false Mat4.identity
          ⟨[(0, 0, 0), (0, 1, 0), (1, 0, 0)],
           [⟨0, (0, 0, 1), (0, 0), (0, 0, 0)⟩, ⟨1, (0, 0, 1), (0, 0), (0, 0, 0)⟩,
            ⟨2, (0, 0, 1), (0, 0), (0, 0, 0)⟩],
           [⟨0, (0, 1, 2)⟩], [some ⟨"leaf", none⟩], false⟩
          (1, 1, 1) ⟨0, 0, true, true, false, true⟩ []]
      = .ok ([.plain "BlenderFile" 2 true, .mesh "Road" 3 [1, 2, 0] 3], []) ∧
    (∃ (gs : List KstreeGroup) (rest : List OutNode) (restWarns : List Warning),
      gs.Perm (collectAndGroupObjects
        [.node "KSTREE_GROUP_OAK_1" .curve false Mat4.identity
          ⟨[(0, 0, 0), (0, 1, 0), (1, 0, 0)],
           [⟨0, (0, 0, 1), (0, 0), (0, 0, 0)⟩, ⟨1, (0, 0, 1), (0, 0), (0, 0, 0)⟩,
            ⟨2, (0, 0, 1), (0, 0), (0, 0, 0)⟩],
           [⟨0, (0, 1, 2)⟩], [some ⟨"leaf", none⟩], false⟩
          (1, 1, 1) ⟨0, 0, true, true, false, true⟩ [],
         .node "Road" .mesh false Mat4.identity
          ⟨[(0, 0, 0), (0, 1, 0), (1, 0, 0)],
           [⟨0, (0, 0, 1), (0, 0), (0, 0, 0)⟩, ⟨1, (0, 0, 1), (0, 0), (0, 0, 0)⟩,
            ⟨2, (0, 0, 1), (0, 0), (0, 0, 0)⟩],
           [⟨0, (0, 1, 2)⟩], [some ⟨"leaf", none⟩], false⟩
          (1, 1, 1) ⟨0, 0, true, true, false, true⟩ []]).2 ∧
      gs.Pairwise (fun a b => pyStringLe a.key b.key = true) ∧
      writeTopObjects [("leaf", 3)] (collectAndGroupObjects
        [.node "KSTREE_GROUP_OAK_1" .curve false Mat4.identity
          ⟨[(0, 0, 0), (0, 1, 0), (1, 0, 0)],
           [⟨0, (0, 0, 1), (0, 0), (0, 0, 0)⟩, ⟨1, (0, 0, 1), (0, 0), (0, 0, 0)⟩,
            ⟨2, (0, 0, 1), (0, 0), (0, 0, 0)⟩],
           [⟨0, (0, 1, 2)⟩], [some ⟨"leaf", none⟩], false⟩
          (1, 1, 1) ⟨0, 0, true, true, false, true⟩ [],
         .node "Road" .mesh false Mat4.identity
          ⟨[(0, 0, 0), (0, 1, 0), (1, 0, 0)],
           [⟨0, (0, 0, 1), (0, 0), (0, 0, 0)⟩, ⟨1, (0, 0, 1), (0, 0), (0, 0, 0)⟩,
            ⟨2, (0, 0, 1), (0, 0), (0, 0, 0)⟩],
           [⟨0, (0, 1, 2)⟩], [some ⟨"leaf", none⟩], false⟩
          (1, 1, 1) ⟨0, 0, true, true, false, true⟩ []]).1 = .ok (rest, restWarns) ∧
      [OutNode.plain "BlenderFile" 2 true, .mesh "Road" 3 [1, 2, 0] 3] =
        OutNode.plain "BlenderFile"
            ((collectAndGroupObjects
              [.node "KSTREE_GROUP_OAK_1" .curve false Mat4.identity
                ⟨[(0, 0, 0), (0, 1, 0), (1, 0, 0)],
                 [⟨0, (0, 0, 1), (0, 0), (0, 0, 0)⟩, ⟨1, (0, 0, 1), (0, 0), (0, 0, 0)⟩,
                  ⟨2, (0, 0, 1), (0, 0), (0, 0, 0)⟩],
                 [⟨0, (0, 1, 2)⟩], [some ⟨"leaf", none⟩], false⟩
                (1, 1, 1) ⟨0, 0, true, true, false, true⟩ [],
               .node "Road" .mesh false Mat4.identity
                ⟨[(0, 0, 0), (0, 1, 0), (1, 0, 0)],
                 [⟨0, (0, 0, 1), (0, 0), (0, 0, 0)⟩, ⟨1, (0, 0, 1), (0, 0), (0, 0, 0)⟩,
                  ⟨2, (0, 0, 1), (0, 0), (0, 0, 0)⟩],
                 [⟨0, (0, 1, 2)⟩], [some ⟨"leaf", none⟩], false⟩
                (1, 1, 1) ⟨0, 0, true, true, false, true⟩ []]).1.length +
             (collectAndGroupObjects
              [.node "KSTREE_GROUP_OAK_1" .curve false Mat4.identity
                ⟨[(0, 0, 0), (0, 1, 0), (1, 0, 0)],
                 [⟨0, (0, 0, 1), (0, 0), (0, 0, 0)⟩, ⟨1, (0, 0, 1), (0, 0), (0, 0, 0)⟩,
                  ⟨2, (0, 0, 1), (0, 0), (0, 0, 0)⟩],
                 [⟨0, (0, 1, 2)⟩], [some ⟨"leaf", none⟩], false⟩
                (1, 1, 1) ⟨0, 0, true, true, false, true⟩ [],
               .node "Road" .mesh false Mat4.identity
                ⟨[(0, 0, 0), (0, 1, 0), (1, 0, 0)],
                 [⟨0, (0, 0, 1), (0, 0), (0, 0, 0)⟩, ⟨1, (0, 0, 1), (0, 0), (0, 0, 0)⟩,
                  ⟨2, (0, 0, 1), (0, 0), (0, 0, 0)⟩],
                 [⟨0, (0, 1, 2)⟩], [some ⟨"leaf", none⟩], false⟩
                (1, 1, 1) ⟨0, 0, true, true, false, true⟩ []]).2.length) true ::
          (gs.flatMap
            (fun g => (writeKstreeGroup [("leaf", 3)] g.displayName g.objects).1)
            ++ rest)) := by
  have hk : kstreeGroupName "KSTREE_GROUP_OAK_1" = some "OAK" := by decide
  have hr : kstreeGroupName "Road" = none := by decide
  have hh1 : is_hidden_name "KSTREE_GROUP_OAK_1" = false := by decide
  have hh2 : is_hidden_name "Road" = false := by decide
  have hcollect : collectAndGroupObjects
      [.node "KSTREE_GROUP_OAK_1" .curve false Mat4.identity
        ⟨[(0, 0, 0), (0, 1, 0), (1, 0, 0)],
         [⟨0, (0, 0, 1), (0, 0), (0, 0, 0)⟩, ⟨1, (0, 0, 1), (0, 0), (0, 0, 0)⟩,
          ⟨2, (0, 0, 1), (0, 0), (0, 0, 0)⟩],
         [⟨0, (0, 1, 2)⟩], [some ⟨"leaf", none⟩], false⟩
        (1, 1, 1) ⟨0, 0, true, true, false, true⟩ [],
       .node "Road" .mesh false Mat4.identity
        ⟨[(0, 0, 0), (0, 1, 0), (1, 0, 0)],
         [⟨0, (0, 0, 1), (0, 0), (0, 0, 0)⟩, ⟨1, (0, 0, 1), (0, 0), (0, 0, 0)⟩,
          ⟨2, (0, 0, 1), (0, 0), (0, 0, 0)⟩],
         [⟨0, (0, 1, 2)⟩], [some ⟨"leaf", none⟩], false⟩
        (1, 1, 1) ⟨0, 0, true, true, false, true⟩ []]
      = ([.node "Road" .mesh false Mat4.identity
           ⟨[(0, 0, 0), (0, 1, 0), (1, 0, 0)],
            [⟨0, (0, 0, 1), (0, 0), (0, 0, 0)⟩, ⟨1, (0, 0, 1), (0, 0), (0, 0, 0)⟩,
             ⟨2, (0, 0, 1), (0, 0), (0, 0, 0)⟩],
            [⟨0, (0, 1, 2)⟩], [some ⟨"leaf", none⟩], false⟩
           (1, 1, 1) ⟨0, 0, true, true, false, true⟩ []],
         [⟨"oak", "OAK",
           [.node "KSTREE_GROUP_OAK_1" .curve false Mat4.identity
             ⟨[(0, 0, 0), (0, 1, 0), (1, 0, 0)],
              [⟨0, (0, 0, 1), (0, 0), (0, 0, 0)⟩, ⟨1, (0, 0, 1), (0, 0), (0, 0, 0)⟩,
               ⟨2, (0, 0, 1), (0, 0), (0, 0, 0)⟩],
              [⟨0, (0, 1, 2)⟩], [some ⟨"leaf", none⟩], false⟩
             (1, 1, 1) ⟨0, 0, true, true, false, true⟩ []]⟩]) := by
    simp only [collectAndGroupObjects, List.foldl_cons, List.foldl_nil,
      collectScanStep, Obj.name, Obj.excluded, hk, hr, hh1, hh2, addToGroups]
    simp [List.mergeSort_singleton, show pyToLower "OAK" = "oak" from by decide]
  have h : writeNodes [("leaf", 3)]
      [.node "KSTREE_GROUP_OAK_1" .curve false Mat4.identity
        ⟨[(0, 0, 0), (0, 1, 0), (1, 0, 0)],
         [⟨0, (0, 0, 1), (0, 0), (0, 0, 0)⟩, ⟨1, (0, 0, 1), (0, 0), (0, 0, 0)⟩,
          ⟨2, (0, 0, 1), (0, 0), (0, 0, 0)⟩],
         [⟨0, (0, 1, 2)⟩], [some ⟨"leaf", none⟩], false⟩
        (1, 1, 1) ⟨0, 0, true, true, false, true⟩ [],
       .node "Road" .mesh false Mat4.identity
        ⟨[(0, 0, 0), (0, 1, 0), (1, 0, 0)],
         [⟨0, (0, 0, 1), (0, 0), (0, 0, 0)⟩, ⟨1, (0, 0, 1), (0, 0), (0, 0, 0)⟩,
          ⟨2, (0, 0, 1), (0, 0), (0, 0, 0)⟩],
         [⟨0, (0, 1, 2)⟩], [some ⟨"leaf", none⟩], false⟩
        (1, 1, 1) ⟨0, 0, true, true, false, true⟩ []]
      = .ok ([.plain "BlenderFile" 2 true, .mesh "Road" 3 [1, 2, 0] 3], []) := by
    simp only [writeNodes, hcollect, List.mergeSort_singleton, List.foldl_cons,
      List.foldl_nil, writeTopObjects]
    rw [writeObject_oak_eval "Road" hh2]
    rfl
  exact ⟨h, C6_root_structure _ _ _ _ h⟩

theorem extractSlotStep_skip (mp : List (String × Nat)) (matrix : Mat4)
    (md : MeshData) (acc : List (List UvVertex × List Nat × Nat)) (i : Nat)
    (h : treeSlotKept mp md i = false) :
    extractSlotStep mp matrix md acc i = acc := by
  simp only [extractSlotStep, treeSlotKept, List.getD_eq_getElem?_getD] at *
  cases hslot : md.materials[i]?.getD none with
  | none => rfl
  | some m =>
    rw [hslot] at h
    by_cases hh : is_hidden_name m.name = true
    · simp [hh]
    · cases hmp : materialPositionsGet mp m.name with
      | none => simp [hh, hmp]
      | some mid => simp [hh, hmp] at h

theorem extractSlotStep_keep (mp : List (String × Nat)) (matrix : Mat4)
    (md : MeshData) (acc : List (List UvVertex × List Nat × Nat)) (i : Nat)
    (h : treeSlotKept mp md i = true) :
    extractSlotStep mp matrix md acc i = acc ++ [treeSlotRecord mp matrix md i] := by
  simp only [extractSlotStep, treeSlotKept, treeSlotRecord,
    List.getD_eq_getElem?_getD] at *
  cases hslot : md.materials[i]?.getD none with
  | none => rw [hslot] at h; simp at h
  | some m =>
    rw [hslot] at h
    by_cases hh : is_hidden_name m.name = true
    · simp [hh] at h
    · cases hmp : materialPositionsGet mp m.name with
      | none => simp [hh, hmp] at h
      | some mid => simp [hh, hmp]

theorem extractStep_filterMap (mp : List (String × Nat)) (matrix : Mat4)
    (md : MeshData) : ∀ (l : List Nat) (acc : List (List UvVertex × List Nat × Nat)),
    l.foldl (extractSlotStep mp matrix md) acc
      = acc ++ (l.filter (treeSlotKept mp md)).map (treeSlotRecord mp matrix md)
  | [], acc => by simp
  | i :: l, acc => by
    rw [List.foldl_cons, List.filter_cons]
    cases hk : treeSlotKept mp md i with
    | false =>
      rw [extractSlotStep_skip mp matrix md acc i hk]
      simp only [Bool.false_eq_true, if_false]
      exact extractStep_filterMap mp matrix md l acc
    | true =>
      rw [extractSlotStep_keep mp matrix md acc i hk, if_pos rfl,
        extractStep_filterMap mp matrix md l, List.map_cons]
      simp [List.append_assoc]

theorem split_error_of_hidden (mp : List (String × Nat)) (objName : String)
    (dims : Vec3) (matrix : Mat4) (md : MeshData) (t : Triangle) (m : Material)
    (ht : t ∈ md.triangles)
    (hslot : md.materials.getD t.materialIndex none = some m)
    (hh : is_hidden_name m.name = true) :
    ∃ e, splitObjectByMaterials mp objName dims matrix md = .error e := by
  by_cases hmat : md.materials.isEmpty
  · exact ⟨.noMaterials objName, by simp [splitObjectByMaterials, hmat]⟩
  · rw [splitObjectByMaterials, if_neg hmat]
    apply foldlM_except_error _ _ t.materialIndex (usedMaterials_mem md t ht)
    intro b
    refine ⟨.hiddenMaterial m.name objName, ?_⟩
    simp only [List.getD_eq_getElem?_getD] at hslot
    simp [hslot, hh]

/-- **C10**: in the instance-group merge path an empty or hidden material
slot is silently skipped — `_extract_tree_mesh_data` keeps exactly the used
slots with an assigned, non-hidden, id-mapped material, raising nothing and
warning nothing — a member with no materials contributes no geometry, a
group whose members contribute nothing writes no node and no warning, and
the whole export still succeeds; whereas the regular per-object split path
aborts with a fatal error on the same conditions (empty used slot, hidden
used material, no materials at all). -/
theorem C10_group_path_skips_silently :
    (∀ (mp : List (String × Nat)) (matrix : Mat4) (md : MeshData),
      extractTreeMeshData mp matrix md =
        ((usedMaterials md).filter (treeSlotKept mp md)).map
          (treeSlotRecord mp matrix md)) ∧
    (∀ (mp : List (String × Nat)) (matrix : Mat4) (md : MeshData),
      md.materials = [] → extractTreeMeshData mp matrix md = []) ∧
    (∀ (mp : List (String × Nat)) (gname : String) (objects : List Obj),
      (∀ o ∈ objects, extractTreeMeshData mp o.matrixWorld o.mesh = []) →
      writeKstreeGroup mp gname objects = ([], [])) ∧
    (∀ (mp : List (String × Nat)) (objName : String) (dims : Vec3)
        (matrix : Mat4) (md : MeshData) (t : Triangle),
      t ∈ md.triangles → md.materials.getD t.materialIndex none = none →
      ∃ e, splitObjectByMaterials mp objName dims matrix md = .error e) ∧
    (∀ (mp : List (String × Nat)) (objName : String) (dims : Vec3)
        (matrix : Mat4) (md : MeshData) (t : Triangle) (m : Material),
      t ∈ md.triangles → md.materials.getD t.materialIndex none = some m →
      is_hidden_name m.name = true →
      ∃ e, splitObjectByMaterials mp objName dims matrix md = .error e) ∧
    (∀ (mp : List (String × Nat)) (objName : String) (dims : Vec3)
        (matrix : Mat4) (md : MeshData),
      md.materials = [] →
      splitObjectByMaterials mp objName dims matrix md =
        .error (.noMaterials objName)) ∧
    writeNodes [("leaf", 3)]
        [.node "KSTREE_GROUP_OAK_1" .mesh false Mat4.identity
          ⟨[(0, 0, 0), (0, 1, 0), (1, 0, 0)],
           [⟨0, (0, 0, 1), (0, 0), (0, 0, 0)⟩, ⟨1, (0, 0, 1), (0, 0), (0, 0, 0)⟩,
            ⟨2, (0, 0, 1), (0, 0), (0, 0, 0)⟩],
           [⟨0, (0, 1, 2)⟩], [], false⟩
          (1, 1, 1) ⟨0, 0, true, true, false, true⟩ []]
      = .ok ([.plain "BlenderFile" 1 true], []) ∧
    writeNodes [("leaf", 3)]
        [.node "Tree" .mesh false Mat4.identity
          ⟨[(0, 0, 0), (0, 1, 0), (1, 0, 0)],
           [⟨0, (0, 0, 1), (0, 0), (0, 0, 0)⟩, ⟨1, (0, 0, 1), (0, 0), (0, 0, 0)⟩,
            ⟨2, (0, 0, 1), (0, 0), (0, 0, 0)⟩],
           [⟨0, (0, 1, 2)⟩], [], false⟩
          (1, 1, 1) ⟨0, 0, true, true, false, true⟩ []]
      = .error (.noMaterials "Tree") := by
  refine ⟨?_, ?_, ?_, ?_, ?_, ?_, ?_, ?_⟩
  · intro mp matrix md
    by_cases hempty : md.materials.isEmpty = true
    · have hmat : md.materials = [] := by
        cases hm : md.materials with
        | nil => rfl
        | cons a l => rw [hm] at hempty; simp at hempty
      have hk : ∀ i, treeSlotKept mp md i = false := by
        intro i
        simp [treeSlotKept, hmat]
      rw [extractTreeMeshData, if_pos hempty]
      simp [hk]
    · rw [extractTreeMeshData, if_neg hempty]
      simpa using extractStep_filterMap mp matrix md (usedMaterials md) []
  · intro mp matrix md h
    simp [extractTreeMeshData, h]
  · intro mp gname objects hall
    rw [writeKstreeGroup]
    by_cases hme : (objects.filter (fun o => o.otype == ObjType.mesh)).isEmpty = true
    · rw [if_pos hme]
    · rw [if_neg hme]
      have hrec : (objects.filter (fun o => o.otype == ObjType.mesh)).flatMap
          (fun o => extractTreeMeshData mp o.matrixWorld o.mesh) = [] := by
        rw [List.flatMap_eq_nil_iff]
        intro o ho
        exact hall o (List.mem_of_mem_filter ho)
      rw [hrec]
      rfl
  · intro mp objName dims matrix md t ht hslot
    exact split_error_of_emptySlot mp objName dims matrix md t ht hslot
  · intro mp objName dims matrix md t m ht hslot hh
    exact split_error_of_hidden mp objName dims matrix md t m ht hslot hh
  · intro mp objName dims matrix md h
    exact split_error_noMaterials mp objName dims matrix md h
  · have hk : kstreeGroupName "KSTREE_GROUP_OAK_1" = some "OAK" := by decide
    have hh1 : is_hidden_name "KSTREE_GROUP_OAK_1" = false := by decide
    have hcollect : collectAndGroupObjects
        [.node "KSTREE_GROUP_OAK_1" .mesh false Mat4.identity
          ⟨[(0, 0, 0), (0, 1, 0), (1, 0, 0)],
           [⟨0, (0, 0, 1), (0, 0), (0, 0, 0)⟩, ⟨1, (0, 0, 1), (0, 0), (0, 0, 0)⟩,
            ⟨2, (0, 0, 1), (0, 0), (0, 0, 0)⟩],
           [⟨0, (0, 1, 2)⟩], [], false⟩
          (1, 1, 1) ⟨0, 0, true, true, false, true⟩ []]
        = ([], [⟨"oak", "OAK",
            [.node "KSTREE_GROUP_OAK_1" .mesh false Mat4.identity
              ⟨[(0, 0, 0), (0, 1, 0), (1, 0, 0)],
               [⟨0, (0, 0, 1), (0, 0), (0, 0, 0)⟩, ⟨1, (0, 0, 1), (0, 0), (0, 0, 0)⟩,
                ⟨2, (0, 0, 1), (0, 0), (0, 0, 0)⟩],
               [⟨0, (0, 1, 2)⟩], [], false⟩
              (1, 1, 1) ⟨0, 0, true, true, false, true⟩ []]⟩]) := by
      simp only [collectAndGroupObjects, List.foldl_cons, List.foldl_nil,
        collectScanStep, Obj.name, Obj.excluded, hk, hh1, addToGroups]
      simp [List.mergeSort_singleton, show pyToLower "OAK" = "oak" from by decide]
    simp only [writeNodes, hcollect, List.mergeSort_nil, List.mergeSort_singleton,
      List.foldl_cons, List.foldl_nil, writeTopObjects]
    rfl
  · have hr : kstreeGroupName "Tree" = none := by decide
    have hh2 : is_hidden_name "Tree" = false := by decide
    have hcollect : collectAndGroupObjects
        [.node "Tree" .mesh false Mat4.identity
          ⟨[(0, 0, 0), (0, 1, 0), (1, 0, 0)],
           [⟨0, (0, 0, 1), (0, 0), (0, 0, 0)⟩, ⟨1, (0, 0, 1), (0, 0), (0, 0, 0)⟩,
            ⟨2, (0, 0, 1), (0, 0), (0, 0, 0)⟩],
           [⟨0, (0, 1, 2)⟩], [], false⟩
          (1, 1, 1) ⟨0, 0, true, true, false, true⟩ []]
        = ([.node "Tree" .mesh false Mat4.identity
            ⟨[(0, 0, 0), (0, 1, 0), (1, 0, 0)],
             [⟨0, (0, 0, 1), (0, 0), (0, 0, 0)⟩, ⟨1, (0, 0, 1), (0, 0), (0, 0, 0)⟩,
              ⟨2, (0, 0, 1), (0, 0), (0, 0, 0)⟩],
             [⟨0, (0, 1, 2)⟩], [], false⟩
            (1, 1, 1) ⟨0, 0, true, true, false, true⟩ []], []) := by
      simp only [collectAndGroupObjects, List.foldl_cons, List.foldl_nil,
        collectScanStep, Obj.name, Obj.excluded, hr, hh2]
      simp [List.mergeSort_singleton]
    simp only [writeNodes, hcollect, List.mergeSort_nil, List.mergeSort_singleton,
      List.foldl_cons, List.foldl_nil, writeTopObjects, writeObject,
      writeChildObjects, writeMeshNode, Obj.name, Obj.otype, Obj.children,
      Obj.mesh, Obj.dimensions, Obj.matrixWorld, hh2]
    rfl

theorem C10_group_path_skips_silently_witness :
    extractTreeMeshData [("leaf", 3)] Mat4.identity
        ⟨[(0, 0, 0), (0, 1, 0), (1, 0, 0)],
         [⟨0, (0, 0, 1), (0, 0), (0, 0, 0)⟩, ⟨1, (0, 0, 1), (0, 0), (0, 0, 0)⟩,
          ⟨2, (0, 0, 1), (0, 0), (0, 0, 0)⟩],
         [⟨0, (0, 1, 2)⟩], [none], false⟩
      = ((usedMaterials
            ⟨[(0, 0, 0), (0, 1, 0), (1, 0, 0)],
             [⟨0, (0, 0, 1), (0, 0), (0, 0, 0)⟩, ⟨1, (0, 0, 1), (0, 0), (0, 0, 0)⟩,
              ⟨2, (0, 0, 1), (0, 0), (0, 0, 0)⟩],
             [⟨0, (0, 1, 2)⟩], [none], false⟩).filter
          (treeSlotKept [("leaf", 3)]
            ⟨[(0, 0, 0), (0, 1, 0), (1, 0, 0)],
             [⟨0, (0, 0, 1), (0, 0), (0, 0, 0)⟩, ⟨1, (0, 0, 1), (0, 0), (0, 0, 0)⟩,
              ⟨2, (0, 0, 1), (0, 0), (0, 0, 0)⟩],
             [⟨0, (0, 1, 2)⟩], [none], false⟩)).map
          (treeSlotRecord [("leaf", 3)] Mat4.identity
            ⟨[(0, 0, 0), (0, 1, 0), (1, 0, 0)],
             [⟨0, (0, 0, 1), (0, 0), (0, 0, 0)⟩, ⟨1, (0, 0, 1), (0, 0), (0, 0, 0)⟩,
              ⟨2, (0, 0, 1), (0, 0), (0, 0, 0)⟩],
             [⟨0, (0, 1, 2)⟩], [none], false⟩) ∧
    extractTreeMeshData [("leaf", 3)] Mat4.identity
        ⟨[(0, 0, 0), (0, 1, 0), (1, 0, 0)],
         [⟨0, (0, 0, 1), (0, 0), (0, 0, 0)⟩, ⟨1, (0, 0, 1), (0, 0), (0, 0, 0)⟩,
          ⟨2, (0, 0, 1), (0, 0), (0, 0, 0)⟩],
         [⟨0, (0, 1, 2)⟩], [], false⟩ = [] ∧
    writeKstreeGroup [("leaf", 3)] "OAK"
        [.node "KSTREE_GROUP_OAK_1" .mesh false Mat4.identity
          ⟨[(0, 0, 0), (0, 1, 0), (1, 0, 0)],
           [⟨0, (0, 0, 1), (0, 0), (0, 0, 0)⟩, ⟨1, (0, 0, 1), (0, 0), (0, 0, 0)⟩,
            ⟨2, (0, 0, 1), (0, 0), (0, 0, 0)⟩],
           [⟨0, (0, 1, 2)⟩], [none], false⟩
          (1, 1, 1) ⟨0, 0, true, true, false, true⟩ []] = ([], []) ∧
    (∃ e, splitObjectByMaterials [("leaf", 3)] "Tree" (1, 1, 1) Mat4.identity
        ⟨[(0, 0, 0), (0, 1, 0), (1, 0, 0)],
         [⟨0, (0, 0, 1), (0, 0), (0, 0, 0)⟩, ⟨1, (0, 0, 1), (0, 0), (0, 0, 0)⟩,
          ⟨2, (0, 0, 1), (0, 0), (0, 0, 0)⟩],
         [⟨0, (0, 1, 2)⟩], [none], false⟩ = .error e) ∧
    (∃ e, splitObjectByMaterials [("leaf", 3)] "Tree" (1, 1, 1) Mat4.identity
        ⟨[(0, 0, 0), (0, 1, 0), (1, 0, 0)],
         [⟨0, (0, 0, 1), (0, 0), (0, 0, 0)⟩, ⟨1, (0, 0, 1), (0, 0), (0, 0, 0)⟩,
          ⟨2, (0, 0, 1), (0, 0), (0, 0, 0)⟩],
         [⟨0, (0, 1, 2)⟩], [some ⟨"__hid", none⟩], false⟩ = .error e) ∧
    splitObjectByMaterials [("leaf", 3)] "Tree" (1, 1, 1) Mat4.identity
        ⟨[(0, 0, 0), (0, 1, 0), (1, 0, 0)],
         [⟨0, (0, 0, 1), (0, 0), (0, 0, 0)⟩, ⟨1, (0, 0, 1), (0, 0), (0, 0, 0)⟩,
          ⟨2, (0, 0, 1), (0, 0), (0, 0, 0)⟩],
         [⟨0, (0, 1, 2)⟩], [], false⟩ = .error (.noMaterials "Tree") := by
  refine ⟨C10_group_path_skips_silently.1 _ _ _,
    C10_group_path_skips_silently.2.1 _ _ _ rfl,
    C10_group_path_skips_silently.2.2.1 _ _ _ ?_,
    C10_group_path_skips_silently.2.2.2.1 _ _ _ _ _ ⟨0, (0, 1, 2)⟩ (by simp) rfl,
    C10_group_path_skips_silently.2.2.2.2.1 _ _ _ _ _ ⟨0, (0, 1, 2)⟩
      ⟨"__hid", none⟩ (by simp) rfl (by decide),
    C10_group_path_skips_silently.2.2.2.2.2.1 _ _ _ _ _ rfl⟩
  intro o ho
  simp only [List.mem_singleton] at ho
  subst ho
  rfl
